import Mathlib

/-
  Verification of the curtin block-meta custom-mode storage executor
  (src/curtin/commands/block_meta.py) against its natural-language
  specification.  The Python module is shallowly embedded: every external
  effect (subprocess invocation, file write, sleep) is recorded in a trace,
  the live system (exit codes, tool output, parted state, sysfs) is an
  explicit environment, and each handler is a Lean function from its record
  and the storage configuration to a trace plus an Except result.
-/

namespace BlockMeta

/- ## Python-semantics helpers -/

/-- Truthiness of an optional string, as Python `if not x` sees it:
`None` and the empty string are falsy. -/
def pyTruthy : Option String → Bool
  | none => false
  | some s => !s.data.isEmpty

/-- `info.get(k)` followed by a truthiness test: returns the value only when
it is truthy (used for optional attributes such as cipher or size). -/
def pyGet (o : Option String) : Option String :=
  if pyTruthy o then o else none

/-- Truthiness of an optional integer attribute: `None` and `0` are falsy. -/
def pyNum : Option Nat → Option Nat
  | none => none
  | some n => if n == 0 then none else some n

/-- Truthiness of an optional list attribute: `None` and `[]` are falsy. -/
def pyTruthyList : Option (List String) → Bool
  | none => false
  | some l => !l.isEmpty

/-- Bool test used for list fields of records. -/
def charsStartWith : List Char → List Char → Bool
  | [], _ => true
  | _ :: _, [] => false
  | a :: as, b :: bs => a == b && charsStartWith as bs

/-- Substring containment on character lists (Python `needle in hay`). -/
def charsContain : List Char → List Char → Bool
  | needle, [] => charsStartWith needle []
  | needle, b :: bs => charsStartWith needle (b :: bs) || charsContain needle bs

/-- Python string containment `needle in hay`. -/
def pyIn (needle hay : String) : Bool :=
  charsContain needle.data hay.data

/-- Split a character list on a single separator character, keeping empty
groups, as Python str.split with a one-character separator does. -/
def splitChars (sep : Char) : List Char → List (List Char)
  | [] => [[]]
  | c :: cs =>
    if c == sep then [] :: splitChars sep cs
    else
      match splitChars sep cs with
      | [] => [[c]]
      | g :: gs => (c :: g) :: gs

/-- Python `s.split(sep)` for a one-character separator. -/
def pySplit (s : String) (sep : Char) : List String :=
  (splitChars sep s.data).map String.mk

/-- Join strings with a separator. -/
def joinWith (sep : String) : List String → String
  | [] => ""
  | [x] => x
  | x :: xs => x ++ sep ++ joinWith sep xs

/-- Python `str.splitlines` for newline-separated tool output: a trailing
newline does not produce a trailing empty line. -/
def pySplitLines (s : String) : List String :=
  let l := pySplit s '\n'
  if l.getLast? == some "" then l.dropLast else l

/-- Python `line.split(sep)[-1]`. -/
def lastField (line : String) : String :=
  (pySplit line '=').getLastD ""

/-- The `while path[0] == "/"` loop of the mount handler: strip every
leading slash. -/
def stripLeadSlashes (s : String) : String :=
  String.mk (s.data.dropWhile (fun c => c == '/'))

/-- Python `s.strip(chars)` restricted to a character class: remove matching
characters from both ends. -/
def pyStripEnds (p : Char → Bool) (s : String) : String :=
  String.mk (((s.data.dropWhile p).reverse.dropWhile p).reverse)

/-- Python `os.path.split(s)[-1]` for the paths this module handles. -/
def pyBasename (s : String) : String :=
  (pySplit s '/').getLastD s

/-- Python `os.path.split(s)[0]` for the paths this module handles. -/
def pyDirname (s : String) : String :=
  joinWith "/" ((pySplit s '/').dropLast)

/-- Python `os.path.join(a, b)` for a relative second component. -/
def pyJoin (a b : String) : String :=
  if a.data.getLast? == some '/' then a ++ b else a ++ "/" ++ b

/-- Python two-sided set equality `set(a) == set(b)` on string lists. -/
def eqAsSets (a b : List String) : Bool :=
  a.all (fun x => b.contains x) && b.all (fun x => a.contains x)

/- ## The partition library (pyparted), as far as the module consults it -/

/-- Modelled from the external pyparted library: bytes per size unit. -/
def unitBytes : String → Option Nat
  | "B" => some 1
  | "KB" => some 1000
  | "KiB" => some 1024
  | "MB" => some 1000000
  | "MiB" => some 1048576
  | "GB" => some 1000000000
  | "GiB" => some 1073741824
  | "TB" => some 1000000000000
  | "TiB" => some 1099511627776
  | _ => none

/-- Modelled from the external pyparted library: `parted.sizeToSectors`,
converting a value in the given unit to sectors of the given size. -/
def sizeToSectors (v : Nat) (unit : String) (sectorSize : Nat) : Option Nat :=
  (unitBytes unit).map (fun b => v * b / sectorSize)

/-- Partition class as reported by the partition library
(PARTITION_NORMAL, PARTITION_EXTENDED, PARTITION_LOGICAL). -/
inductive PartType
  | normal
  | extended
  | logical
deriving DecidableEq, Repr

/-- A partition as the partition library reports it: class, geometry start
sector, geometry length in sectors, and device node path. -/
structure PPart where
  ptype : PartType
  pstart : Nat
  plength : Nat
  path : String
deriving DecidableEq, Repr

/-- The geometry end sector, start + length - 1 as in parted. -/
def PPart.pend (p : PPart) : Nat := p.pstart + p.plength - 1

/- ## Storage configuration records -/

/-- One entity record of the declarative storage configuration.  Attributes
the Python code reads with `info.get(...)` are optional; `id` and `type`
are always present (the executor indexes records by `d["id"]`).  The
`preserve` attribute is a boolean in the configuration. -/
structure Record where
  id : String
  typ : String
  device : Option String
  volume : Option String
  volgroup : Option String
  name : Option String
  serial : Option String
  path : Option String
  ptable : Option String
  wipe : Option String
  flag : Option String
  size : Option String
  fstype : Option String
  label : Option String
  key : Option String
  keysize : Option String
  cipher : Option String
  dm_name : Option String
  backing_device : Option String
  cache_device : Option String
  number : Option Nat
  preserve : Bool
  devices : Option (List String)
deriving DecidableEq, Repr

/-- A record with every optional attribute absent, for building test
configurations. -/
def rec0 : Record :=
  { id := "", typ := "", device := none, volume := none, volgroup := none,
    name := none, serial := none, path := none, ptable := none, wipe := none,
    flag := none, size := none, fstype := none, label := none, key := none,
    keysize := none, cipher := none, dm_name := none, backing_device := none,
    cache_device := none, number := none, preserve := false, devices := none }

/-- `storage_config.get(x)`: look an id up in the ordered record list
(the OrderedDict built by meta_custom); `None` keys find nothing. -/
def lookup (cfg : List Record) : Option String → Option Record
  | none => none
  | some s => cfg.find? (fun r => r.id == s)

/- ## Effects, errors, environment -/

/-- One observable action of a handler run. -/
inductive Action
  | subpCmd (args : List String)
  | sleep1
  | writeFile (path content : String)
  | appendFile (path line : String)
  | removeFile (path : String)
  | ensureDir (path : String)
  | partedSetFlag (disk flag : String)
  | partedAdd (disk : String) (pstart plength : Nat) (ptype : PartType)
  | partedCommit (disk : String)
deriving DecidableEq, Repr

/-- Error taxonomy.  `configError` stands for a Python ValueError,
`unsupported` for NotImplementedError, `toolError` for the subprocess
gateways ProcessExecutionError, `deviceNotAppearing` for the OSError raised
by devsync, and `pyCrash` for an uncaught attribute or index crash. -/
inductive Err
  | configError (site : String)
  | unsupported (site : String)
  | toolError (cmd : List String) (code : Nat)
  | deviceNotAppearing (path : String)
  | pyCrash (site : String)
deriving DecidableEq, Repr

/-- The live system the module consults: subprocess exit codes and captured
output, device node appearance over the devsync polling rounds, the
partition tables and sector sizes parted reports, disk lookup by serial,
the bcache sysfs slave entries, the mkstemp result, blkid uuids, and the
command environment (target mount point and fstab location). -/
structure Env where
  exitCode : List String → Nat
  output : List String → String
  pathExistsAt : String → Nat → Bool
  diskPartitions : String → List PPart
  sectorSize : String → Nat
  lookupDisk : String → String
  bcacheSlaves : List String
  tempFile : String
  volumeUuid : String → String
  partPathAfterAdd : String → Nat → String
  stateTarget : String
  stateFstab : Option String

/- ## The effect monad: a trace of actions plus an Except result -/

/-- Result of running a piece of the module: the actions it performed, in
order, and its outcome. -/
structure Run (α : Type) where
  trace : List Action
  result : Except Err α

instance : Monad Run where
  pure a := ⟨[], Except.ok a⟩
  bind r f :=
    match r.result with
    | Except.error e => ⟨r.trace, Except.error e⟩
    | Except.ok a => ⟨r.trace ++ (f a).trace, (f a).result⟩

/-- Record one action and succeed. -/
def emit (a : Action) : Run Unit := ⟨[a], Except.ok ()⟩

/-- Raise. -/
def fail {α : Type} (e : Err) : Run α := ⟨[], Except.error e⟩

/-- Lift a pure Except computation. -/
def liftE {α : Type} : Except Err α → Run α
  | Except.ok a => ⟨[], Except.ok a⟩
  | Except.error e => ⟨[], Except.error e⟩

/-- Modelled from the spec: `util.subp` (the subprocess gateway, spec 4.1)
is not under src/.  It runs the command, and fails with a ToolError when
the exit code is outside the allow-list, whose default is the single code
zero. -/
def subp (env : Env) (cmd : List String) (rcs : List Nat) : Run Unit :=
  ⟨[Action.subpCmd cmd],
    if rcs.contains (env.exitCode cmd) then Except.ok ()
    else Except.error (Err.toolError cmd (env.exitCode cmd))⟩

/-- Modelled from the spec: `util.subp` with capture=True additionally
returns the stdout of the command. -/
def subpCapture (env : Env) (cmd : List String) (rcs : List Nat) : Run String :=
  ⟨[Action.subpCmd cmd],
    if rcs.contains (env.exitCode cmd) then Except.ok (env.output cmd)
    else Except.error (Err.toolError cmd (env.exitCode cmd))⟩

/- ## Basic Run lemmas -/

theorem run_pure_def {α : Type} (a : α) :
    (pure a : Run α) = ⟨[], Except.ok a⟩ := rfl

theorem run_bind_def {α β : Type} (r : Run α) (f : α → Run β) :
    r >>= f = match r.result with
      | Except.error e => ⟨r.trace, Except.error e⟩
      | Except.ok a => ⟨r.trace ++ (f a).trace, (f a).result⟩ := rfl

theorem run_bind_ok {α β : Type} (r : Run α) (f : α → Run β) (a : α)
    (h : r.result = Except.ok a) :
    r >>= f = ⟨r.trace ++ (f a).trace, (f a).result⟩ := by
  rw [run_bind_def, h]

theorem run_bind_err {α β : Type} (r : Run α) (f : α → Run β) (e : Err)
    (h : r.result = Except.error e) :
    r >>= f = ⟨r.trace, Except.error e⟩ := by
  rw [run_bind_def, h]

/-- Inversion: a successful bind passed through a successful first stage. -/
theorem run_bind_ok_inv {α β : Type} (r : Run α) (f : α → Run β) (b : β)
    (h : (r >>= f).result = Except.ok b) :
    ∃ a, r.result = Except.ok a ∧ (f a).result = Except.ok b := by
  rw [run_bind_def] at h
  cases hr : r.result with
  | error e => rw [hr] at h; exact absurd h (by simp)
  | ok a => rw [hr] at h; exact ⟨a, rfl, h⟩

/- ## Device-node synchronizer (devsync, lines 163-172) -/

/-- The `for x in range(0, 10)` polling loop of devsync: check existence,
return when present, otherwise sleep one second and retry; `round` is the
index of the current poll. -/
def pollExists (env : Env) (devpath : String) : Nat → Nat → Run Unit
  | _, 0 => fail (Err.deviceNotAppearing devpath)
  | round, n + 1 =>
    if env.pathExistsAt devpath round then pure ()
    else do
      emit Action.sleep1
      pollExists env devpath (round + 1) n

/-- devsync (block_meta.py lines 163-172): partprobe the path, settle udev,
then poll for the node up to 10 times.  Both subprocess invocations use the
gateway default allow-list. -/
def devsync (env : Env) (devpath : String) : Run Unit := do
  subp env ["partprobe", devpath] [0]
  subp env ["udevadm", "settle"] [0]
  pollExists env devpath 0 10

/- ## Wipe engine (wipe_volume, lines 138-161) -/

/-- The command list wipe_volume builds for a wipe mode, per its if-chain;
none for an unsupported mode. -/
def wipeCmds (path : String) : String → Option (List (List String))
  | "pvremove" => some [["pvremove", "--force", "--force", "--yes", path],
                        ["pvscan", "--cache"],
                        ["vgscan", "--mknodes", "--cache"]]
  | "zero" => some [["dd", "bs=512", "if=/dev/zero", "of=" ++ path]]
  | "random" => some [["dd", "bs=512", "if=/dev/urandom", "of=" ++ path]]
  | "superblock" => some [["sgdisk", "--zap-all", path],
                          ["wipefs", "-a", path]]
  | _ => none

/-- Run each command in sequence with a common exit-code allow-list. -/
def runAll (env : Env) (rcs : List Nat) : List (List String) → Run Unit
  | [] => pure ()
  | c :: cs => do
    subp env c rcs
    runAll env rcs cs

/-- wipe_volume (lines 138-161): build the command list for the mode, then
run every command with allowed exit codes 0, 1, 2 and 5; an unknown mode
raises ValueError before anything runs. -/
def wipe_volume (env : Env) (path : String) (wipe_type : String) : Run Unit :=
  match wipeCmds path wipe_type with
  | none => fail (Err.configError "wipe mode not supported")
  | some cmds => runAll env [0, 1, 2, 5] cmds

/- ## Path resolver (get_path_to_storage_volume, lines 175-267) -/

/-- The partition-number default computed by the resolver (lines 188-197):
walk the configuration in input order counting partition records with the
same device, stopping at the record itself. -/
def resolverPartNumberLoop (vol : Record) : List Record → Nat → Nat
  | [], acc => acc
  | r :: rs, acc =>
    if r.typ == "partition" && r.device == vol.device then
      if r.id == vol.id then acc
      else resolverPartNumberLoop vol rs (acc + 1)
    else resolverPartNumberLoop vol rs acc

/-- Resolver default partition number: the loop above started at 1. -/
def resolverPartNumber (cfg : List Record) (vol : Record) : Nat :=
  resolverPartNumberLoop vol cfg 1

/-- The bcache node discovery (lines 250-256): find the sysfs slave entry
containing the backing kname, then climb until a path component contains
the word bcache.  A miss on the glob is an uncaught IndexError; a climb
past the root would loop forever in Python, modelled as a crash. -/
def bcacheNodeName (slaves : List String) (kname : String) : Except Err String :=
  match (slaves.filter (fun x => pyIn kname x)).head? with
  | none => Except.error (Err.pyCrash "bcache slave glob empty")
  | some sysPath =>
    match ((pySplit sysPath '/').reverse.find? (fun seg => pyIn "bcache" seg)) with
    | some seg => Except.ok seg
    | none => Except.error (Err.pyCrash "bcache climb loop")

/-- The partition number the resolver uses: the number attribute when it is
truthy, else the input-order count (lines 188-197). -/
def resolverNumberOf (cfg : List Record) (vol : Record) : Nat :=
  match pyNum vol.number with
  | some n => n
  | none => resolverPartNumber cfg vol

/-- The dm_crypt node path: /dev/mapper/ and the dm_name attribute, which
defaults to the record id (lines 231-237). -/
def dmCryptPath (vol : Record) : String :=
  "/dev/mapper/" ++ (if pyTruthy vol.dm_name then vol.dm_name.getD "" else vol.id)

/-- Sync a node and return it: the common tail of the resolver branches. -/
def syncReturn (env : Env) (p : String) : Run String :=
  devsync env p >>= fun _ => pure p

/-- get_path_to_storage_volume (lines 175-267): map an entity id to its
live device node, walking the storage graph, then devsync the node (for a
partition, the parent disk).  Recursion depth is bounded by fuel; the
Python original recurses without bound on a cyclic configuration. -/
def resolveVol (env : Env) (cfg : List Record) : Nat → Option String → Run String
  | 0, _ => fail (Err.pyCrash "recursion limit")
  | fuel + 1, volume =>
    match lookup cfg volume with
    | none => fail (Err.configError "volume id not found")
    | some vol =>
      if vol.typ == "partition" then
        resolveVol env cfg fuel vol.device >>= fun disk_block_path =>
          match (env.diskPartitions disk_block_path)[resolverNumberOf cfg vol - 1]? with
          | none => fail (Err.configError "partition does not exist")
          | some p => devsync env disk_block_path >>= fun _ => pure p.path
      else if vol.typ == "disk" then
        (if pyTruthy vol.serial then pure (env.lookupDisk (vol.serial.getD ""))
         else if pyTruthy vol.path then pure (vol.path.getD "")
         else fail (Err.configError "serial or path required for disk")) >>=
          fun volume_path => syncReturn env volume_path
      else if vol.typ == "lvm_partition" then
        match lookup cfg vol.volgroup with
        | none => fail (Err.configError "lvm volume group not found")
        | some volgroup =>
          match volgroup.name, vol.name with
          | some vgname, some lvname =>
            syncReturn env ("/dev/" ++ vgname ++ "/" ++ lvname)
          | _, _ => fail (Err.pyCrash "join on missing name")
      else if vol.typ == "dm_crypt" then
        syncReturn env (dmCryptPath vol)
      else if vol.typ == "raid" then
        syncReturn env ("/dev/" ++ vol.id)
      else if vol.typ == "bcache" then
        resolveVol env cfg fuel vol.backing_device >>= fun backing =>
          match bcacheNodeName env.bcacheSlaves (pyBasename backing) with
          | Except.error e => fail e
          | Except.ok nodeName => syncReturn env ("/dev/" ++ nodeName)
      else fail (Err.unsupported "cannot determine path for volume type")

/- ## Partition handler (partition_handler, lines 389-486) -/

/-- The partition number the handler uses when the record has no truthy
number attribute (lines 404-405): one past the count of partitions
currently present on the parent disk. -/
def handlerPartNumber (number : Option Nat) (parts : List PPart) : Nat :=
  match pyNum number with
  | some n => n
  | none => parts.length + 1

/-- The offset computation of the partition handler (lines 409-429),
translated from the source: for partnumber greater than one, offset from
the partition at index partnumber - 2, by class; otherwise 2048 for an
msdos parent table, else sixteen KiB in sectors plus two. -/
def computeOffset (cfg : List Record) (device : Option String)
    (parts : List PPart) (sectorSize : Nat) (pn : Nat) : Except Err Nat :=
  if pn > 1 then
    match parts[pn - 2]? with
    | none => Except.error (Err.configError "previous partition does not exist")
    | some prev =>
      if prev.ptype = PartType.extended then Except.ok (prev.pstart + 1)
      else if prev.ptype = PartType.logical then Except.ok (prev.pend + 2)
      else Except.ok (prev.pend + 1)
  else
    match lookup cfg device with
    | none => Except.error (Err.pyCrash "device record lookup")
    | some d =>
      if d.ptable == some "msdos" then Except.ok 2048
      else
        match sizeToSectors 16 "KiB" sectorSize with
        | some s => Except.ok (s + 2)
        | none => Except.error (Err.pyCrash "size unit")

/-- Python `int(s)` on a digit string (the only shapes this module feeds
it): none models the ValueError on a non-numeric string. -/
def parseDigits (s : String) : Option Nat :=
  match s.data with
  | [] => none
  | l =>
    if l.all Char.isDigit then
      some (l.foldl (fun acc c => acc * 10 + (c.toNat - 48)) 0)
    else none

/-- The length computation (lines 431-433): split the size string into its
digit and letter parts and convert with the sector size of the device. -/
def computeLength (size : String) (sectorSize : Nat) : Except Err Nat :=
  match parseDigits (pyStripEnds Char.isAlpha size) with
  | none => Except.error (Err.configError "size not an integer")
  | some v =>
    match sizeToSectors v (pyStripEnds Char.isDigit size) sectorSize with
    | some s => Except.ok s
    | none => Except.error (Err.pyCrash "size unit")

/-- The preserve comparison of the partition handler (lines 439-443): the
existing partition must agree on geometry start and length. -/
def partitionPreserveCheck (p : PPart) (offset lenS : Nat) : Except Err Unit :=
  if p.pstart ≠ offset ∨ p.plength ≠ lenS then
    Except.error (Err.configError "partition preserve mismatch")
  else Except.ok ()

/-- The flag table of the partition handler (lines 467-471). -/
def partFlagNames : List String := ["boot", "lvm", "raid", "bios_grub", "prep"]

/-- Partition class from the flag attribute (lines 452-457). -/
def flagClass : Option String → PartType
  | some "extended" => PartType.extended
  | some "logical" => PartType.logical
  | _ => PartType.normal

/-- The creation tail of the partition handler (lines 479-486): add the
partition with its exact geometry, commit, and wipe the new node when a
truthy wipe mode other than none is set. -/
def addCommitWipe (env : Env) (disk : String) (offset lenS : Nat)
    (ptype : PartType) (pn : Nat) (wipe : Option String) : Run Unit := do
  emit (Action.partedAdd disk offset lenS ptype)
  emit (Action.partedCommit disk)
  if pyTruthy wipe && wipe ≠ some "none" then
    wipe_volume env (env.partPathAfterAdd disk pn) (wipe.getD "")
  else pure ()

/-- The preserve branch of the partition handler (lines 436-443): resolve
the partition path, look the partition up by path, and compare geometry. -/
def partitionPreserveBranch (env : Env) (cfg : List Record) (fuel : Nat)
    (info : Record) (disk : String) (offset lenS : Nat) : Run Unit :=
  resolveVol env cfg fuel (some info.id) >>= fun ppath =>
    match (env.diskPartitions disk).find? (fun p => p.path == ppath) with
    | none => fail (Err.pyCrash "getPartitionByPath")
    | some p => liftE (partitionPreserveCheck p offset lenS)

/-- The create branch of the partition handler (lines 444-486): reject an
asymmetric preserve, validate the flag, set it, then add, commit and wipe. -/
def partitionCreateBranch (env : Env) (cfg : List Record)
    (info : Record) (disk : String) (offset lenS pn : Nat) : Run Unit :=
  match lookup cfg info.device with
  | none => fail (Err.pyCrash "device record lookup")
  | some devRec =>
    if devRec.preserve then
      fail (Err.unsupported "parent device preserved but partition not")
    else
      if pyTruthy info.flag then
        if partFlagNames.contains (info.flag.getD "") then
          emit (Action.partedSetFlag disk (info.flag.getD "")) >>= fun _ =>
            addCommitWipe env disk offset lenS (flagClass info.flag) pn info.wipe
        else if info.flag == some "extended" || info.flag == some "logical" then
          addCommitWipe env disk offset lenS (flagClass info.flag) pn info.wipe
        else fail (Err.configError "invalid partition flag")
      else addCommitWipe env disk offset lenS (flagClass info.flag) pn info.wipe

/-- The body of the partition handler once the parent disk path is known
(lines 401-486): read the table, default the number, compute offset and
length, then branch on preserve. -/
def partitionOnDisk (env : Env) (cfg : List Record) (fuel : Nat)
    (info : Record) (disk : String) : Run Unit :=
  liftE (computeOffset cfg info.device (env.diskPartitions disk)
      (env.sectorSize disk)
      (handlerPartNumber info.number (env.diskPartitions disk))) >>= fun offset =>
  liftE (computeLength (info.size.getD "") (env.sectorSize disk)) >>= fun lenS =>
  if info.preserve then
    partitionPreserveBranch env cfg fuel info disk offset lenS
  else
    partitionCreateBranch env cfg info disk offset lenS
      (handlerPartNumber info.number (env.diskPartitions disk))

/-- partition_handler (lines 389-486). -/
def partition_handler (env : Env) (cfg : List Record) (fuel : Nat)
    (info : Record) : Run Unit :=
  if !pyTruthy info.device then fail (Err.configError "partition device missing")
  else if !pyTruthy info.size then fail (Err.configError "partition size missing")
  else
    resolveVol env cfg fuel info.device >>= fun disk =>
      partitionOnDisk env cfg fuel info disk

/- ## Format handler (format_handler, lines 489-538) -/

/-- The mkfs command construction of the format handler (lines 506-536),
including the PATH probe for an unknown fstype.  The fat family nests its
label handling inside the explicit-size branch, so the bare fat fstype
never sees the label. -/
def mkfsCommand (env : Env) (fstype : Option String) (label : Option String)
    (volume_path : String) : Run (List String) :=
  if fstype == some "ext4" || fstype == some "ext3" then
    match pyGet label with
    | some l =>
      if l.length > 16 then fail (Err.configError "ext label too long")
      else pure ["mkfs." ++ fstype.getD "None", "-q", "-L", l, volume_path]
    | none => pure ["mkfs." ++ fstype.getD "None", "-q", volume_path]
  else if ["fat12", "fat16", "fat32", "fat"].contains (fstype.getD "None") &&
      fstype.isSome then
    if ["12", "16", "32"].contains (pyStripEnds Char.isAlpha (fstype.getD "None")) then
      match pyGet label with
      | some l =>
        if l.length > 11 then fail (Err.configError "fat label too long")
        else pure ["mkfs.fat", "-F", pyStripEnds Char.isAlpha (fstype.getD "None"),
                   "-n", l, volume_path]
      | none => pure ["mkfs.fat", "-F", pyStripEnds Char.isAlpha (fstype.getD "None"),
                      volume_path]
    else pure ["mkfs.fat", volume_path]
  else if fstype == some "swap" then pure ["mkswap", volume_path]
  else
    match (subp env ["which", "mkfs." ++ fstype.getD "None"] [0]).result with
    | Except.ok _ =>
      ⟨(subp env ["which", "mkfs." ++ fstype.getD "None"] [0]).trace,
       Except.ok ["mkfs." ++ fstype.getD "None", volume_path]⟩
    | Except.error _ =>
      ⟨(subp env ["which", "mkfs." ++ fstype.getD "None"] [0]).trace,
       Except.error (Err.configError "fstype not supported")⟩

/-- format_handler (lines 489-538). -/
def format_handler (env : Env) (cfg : List Record) (fuel : Nat)
    (info : Record) : Run Unit := do
  if !pyTruthy info.volume then fail (Err.configError "format volume missing")
  else do
    let volume_path ← resolveVol env cfg fuel info.volume
    if info.preserve then pure ()
    else do
      let cmd ← mkfsCommand env info.fstype info.label volume_path
      subp env cmd [0]

/- ## Mount handler (mount_handler, lines 541-591) -/

/-- fstype names the mount handler collapses to vfat (lines 584-586). -/
def fatFamily : List String := ["fat", "fat12", "fat16", "fat32", "fat64"]

/-- The mount-point field of the fstab line (lines 577-581): none for
swap, else the slash-stripped path behind a slash. -/
def fstabPathField (fstype : Option String) (path0 : Option String) : String :=
  if fstype == some "swap" then "none"
  else "/" ++ stripLeadSlashes (path0.getD "")

/-- The options field (lines 577-582): sw for swap, defaults otherwise. -/
def fstabOptionsField (fstype : Option String) : String :=
  if fstype == some "swap" then "sw" else "defaults"

/-- The fstype field (lines 584-588): the five fat names collapse to vfat,
anything else is written as-is. -/
def fstabFstypeField (fstype : Option String) : String :=
  if fatFamily.contains (fstype.getD "None") && fstype.isSome then "vfat"
  else fstype.getD "None"

/-- The fstab-line assembly of the mount handler (lines 566-589): location
by volume type, then the line of location, mount point, fstype, options
and the fixed dump and pass fields. -/
def fstabEntry (env : Env) (cfg : List Record) (fuel : Nat)
    (filesystem : Record) (volumeO : Option Record) (volume_path : String)
    (path0 : Option String) : Run String :=
  (match volumeO with
   | none => fail (Err.pyCrash "mount volume lookup")
   | some volume =>
     if ["raid", "bcache", "lvm_partition"].contains volume.typ then
       resolveVol env cfg fuel (some volume.id)
     else if ["partition", "dm_crypt"].contains volume.typ then
       pure ("UUID=" ++ env.volumeUuid volume_path)
     else fail (Err.configError "cannot write fstab for volume type")) >>=
  fun location =>
    pure (location ++ " " ++ fstabPathField filesystem.fstype path0 ++ " " ++
      fstabFstypeField filesystem.fstype ++ " " ++
      fstabOptionsField filesystem.fstype ++ " 0 0\n")

/-- The mounting step of the mount handler (lines 553-563): for a non-swap
filesystem, strip the path, ensure the mount point directory exists under
the target, and mount the volume there. -/
def mountStep (env : Env) (filesystem : Record) (volume_path : String)
    (path0 : Option String) : Run Unit :=
  if filesystem.fstype ≠ some "swap" then
    emit (Action.ensureDir
        (pyJoin env.stateTarget (stripLeadSlashes (path0.getD "")))) >>= fun _ =>
      subp env ["mount", volume_path,
        pyJoin env.stateTarget (stripLeadSlashes (path0.getD ""))] [0]
  else pure ()

/-- The fstab side-write of the mount handler (lines 565-591): when an
fstab location is configured, assemble the line and append it; otherwise
only log. -/
def fstabStep (env : Env) (cfg : List Record) (fuel : Nat)
    (filesystem : Record) (volumeO : Option Record) (volume_path : String)
    (path0 : Option String) : Run Unit :=
  if pyTruthy env.stateFstab then
    fstabEntry env cfg fuel filesystem volumeO volume_path path0 >>= fun line =>
      emit (Action.appendFile (env.stateFstab.getD "") line)
  else pure ()

/-- mount_handler (lines 541-591). -/
def mount_handler (env : Env) (cfg : List Record) (fuel : Nat)
    (info : Record) : Run Unit :=
  match lookup cfg info.device with
  | none => fail (Err.pyCrash "mount device lookup")
  | some filesystem =>
    if !pyTruthy info.path && filesystem.fstype ≠ some "swap" then
      fail (Err.configError "mountpoint path missing")
    else
      resolveVol env cfg fuel filesystem.volume >>= fun volume_path =>
      mountStep env filesystem volume_path info.path >>= fun _ =>
      fstabStep env cfg fuel filesystem (lookup cfg filesystem.volume)
        volume_path info.path

/- ## LVM volume group handler (lvm_volgroup_handler, lines 594-632) -/

/-- pvdisplay invocation used by both the disk teardown and the volgroup
preserve verification. -/
def pvdisplayCmd : List String :=
  ["pvdisplay", "-C", "--separator", "=", "-o", "vg_name,pv_name", "--noheadings"]

/-- lvdisplay invocation of the lvm partition preserve verification. -/
def lvdisplayCmd : List String :=
  ["lvdisplay", "-C", "--separator", "=", "-o", "lv_name,vg_name", "--noheadings"]

/-- The pvdisplay filter of the volgroup preserve verification (lines
621-623): keep the last field of every output line that contains the
volgroup name anywhere in the line. -/
def vgCurrentPaths (name : String) (out : String) : List String :=
  (pySplitLines out).foldr
    (fun line acc => if pyIn name line then lastField line :: acc else acc) []

/-- Resolve each device id of a volgroup (lines 604-610), checking the
record exists before resolving it. -/
def resolveManyChecked (env : Env) (cfg : List Record) (fuel : Nat) :
    List String → Run (List String)
  | [] => pure []
  | d :: ds =>
    match lookup cfg (some d) with
    | none => fail (Err.configError "volgroup device not in config")
    | some _ => do
      let p ← resolveVol env cfg fuel (some d)
      let ps ← resolveManyChecked env cfg fuel ds
      pure (p :: ps)

/-- lvm_volgroup_handler (lines 594-632). -/
def lvm_volgroup_handler (env : Env) (cfg : List Record) (fuel : Nat)
    (info : Record) : Run Unit := do
  if !pyTruthyList info.devices then fail (Err.configError "volgroup devices missing")
  else if !pyTruthy info.name then fail (Err.configError "volgroup name missing")
  else do
    let device_paths ← resolveManyChecked env cfg fuel (info.devices.getD [])
    if info.preserve then do
      subp env ["vgchange", "-a", "y"] [0]
      let out ← subpCapture env pvdisplayCmd [0]
      if eqAsSets (vgCurrentPaths (info.name.getD "") out) device_paths then pure ()
      else fail (Err.configError "volgroup preserve mismatch")
    else subp env (["vgcreate", info.name.getD ""] ++ device_paths) [0]

/- ## LVM partition handler (lvm_partition_handler, lines 635-675) -/

/-- The lvdisplay scan of the lvm partition preserve verification (lines
648-653): some output line contains the lv name anywhere and has the
volgroup name as its last field. -/
def lvFound (name volgroup : String) (out : String) : Bool :=
  (pySplitLines out).any (fun line => pyIn name line && volgroup == lastField line)

/-- The lvcreate invocation of the lvm partition handler (lines 664-671):
explicit size with -L, otherwise all free space. -/
def lvcreateCmd (vg nm : String) (size : Option String) : List String :=
  ["lvcreate", vg, "-n", nm] ++
    (match pyGet size with
     | some s => ["-L", s]
     | none => ["-l", "100%FREE"])

/-- The preserve-or-create branch of the lvm partition handler (lines
644-671). -/
def lvmPartBranch (env : Env) (info : Record) (vgRec : Record) : Run Unit :=
  if info.preserve then
    subpCapture env lvdisplayCmd [0] >>= fun out =>
      if lvFound (info.name.getD "") (vgRec.name.getD "") out then pure ()
      else fail (Err.configError "lvm partition preserve mismatch")
  else if vgRec.preserve then
    fail (Err.unsupported "volgroup preserved but lvm partition not")
  else
    subp env (lvcreateCmd (vgRec.name.getD "") (info.name.getD "") info.size) [0]

/-- lvm_partition_handler (lines 635-675).  Note the ptable rejection is
the final statement of the handler, after the create branch has run. -/
def lvm_partition_handler (env : Env) (cfg : List Record) (fuel : Nat)
    (info : Record) : Run Unit :=
  match lookup cfg info.volgroup with
  | none => fail (Err.pyCrash "volgroup record lookup")
  | some vgRec =>
    if !pyTruthy vgRec.name then fail (Err.configError "lvm volgroup missing")
    else if !pyTruthy info.name then fail (Err.configError "lvm name missing")
    else
      lvmPartBranch env info vgRec >>= fun _ =>
        if pyTruthy info.ptable then
          fail (Err.configError "ptable on lvm partition not supported")
        else pure ()

/- ## dm_crypt handler (dm_crypt_handler, lines 678-728) -/

/-- The luksFormat invocation (lines 701-706) with optional cipher and key
size. -/
def luksFormatCmd (cipher keysize : Option String) (vp tmp : String) : List String :=
  ["cryptsetup"] ++
  (match cipher with | some c => ["--cipher", c] | none => []) ++
  (match keysize with | some k => ["--key-size", k] | none => []) ++
  ["luksFormat", vp, tmp]

/-- The cryptsetup open invocation (lines 710-711). -/
def cryptOpenCmd (vp dm_name tmp : String) : List String :=
  ["cryptsetup", "open", "--type", "luks", vp, dm_name, "--key-file", tmp]

/-- The body of the dm_crypt handler after volume resolution (lines
695-728): write the key to the mkstemp file, luksFormat, open, remove the
key file, then append the crypttab line when an fstab is configured.  The
removal is only reached when both cryptsetup invocations succeed. -/
def dmCryptAfterResolve (env : Env) (vp dm_name key : String)
    (cipher keysize : Option String) : Run Unit :=
  emit (Action.writeFile env.tempFile key) >>= fun _ =>
  subp env (luksFormatCmd cipher keysize vp env.tempFile) [0] >>= fun _ =>
  subp env (cryptOpenCmd vp dm_name env.tempFile) [0] >>= fun _ =>
  emit (Action.removeFile env.tempFile) >>= fun _ =>
  if pyTruthy env.stateFstab then
    emit (Action.appendFile (pyJoin (pyDirname (env.stateFstab.getD "")) "crypttab")
      (dm_name ++ " UUID=" ++ env.volumeUuid vp ++ " none luks\n"))
  else pure ()

/-- dm_crypt_handler (lines 678-728). -/
def dm_crypt_handler (env : Env) (cfg : List Record) (fuel : Nat)
    (info : Record) : Run Unit := do
  if !pyTruthy info.volume then fail (Err.configError "dm_crypt volume missing")
  else if !pyTruthy info.key then fail (Err.configError "dm_crypt key missing")
  else do
    let dm_name := if pyTruthy info.dm_name then info.dm_name.getD "" else info.id
    let vp ← resolveVol env cfg fuel info.volume
    dmCryptAfterResolve env vp dm_name (info.key.getD "")
      (pyGet info.cipher) (pyGet info.keysize)

/- ## bcache handler (bcache_handler, lines 789-821) -/

/-- The try-resolve-then-register step of the bcache handler (lines
810-817): attempt to resolve the new bcache node; only the OSError of a
node that never appeared is caught, in which case both devices are written
to the sysfs register file.  Other resolver errors propagate. -/
def tryResolveRegister (r : Run String) (backing cache : String) : Run Unit :=
  match r.result with
  | Except.error (Err.deviceNotAppearing _) =>
    ⟨r.trace ++ [Action.writeFile "/sys/fs/bcache/register" backing,
                 Action.writeFile "/sys/fs/bcache/register" cache],
     Except.ok ()⟩
  | Except.error e => ⟨r.trace, Except.error e⟩
  | Except.ok _ => ⟨r.trace, Except.ok ()⟩

/-- bcache_handler (lines 789-821).  The ptable rejection is the final
statement, after make-bcache has run. -/
def bcache_handler (env : Env) (cfg : List Record) (fuel : Nat)
    (info : Record) : Run Unit :=
  resolveVol env cfg fuel info.backing_device >>= fun backing =>
  resolveVol env cfg fuel info.cache_device >>= fun cache =>
  if backing.data.isEmpty || cache.data.isEmpty then
    fail (Err.configError "backing and cache device required")
  else
    subp env ["modprobe", "bcache"] [0] >>= fun _ =>
    subp env ["make-bcache", "-B", backing, "-C", cache] [0] >>= fun _ =>
    tryResolveRegister (resolveVol env cfg fuel (some info.id)) backing cache >>= fun _ =>
    if pyTruthy info.ptable then
      fail (Err.configError "ptable on bcache not supported")
    else pure ()

/-- Sequential processing of a list of mount records, as the executor does
for records of type mount. -/
def mountAll (env : Env) (cfg : List Record) (fuel : Nat) :
    List Record → Run Unit
  | [] => pure ()
  | m :: ms => do
    mount_handler env cfg fuel m
    mountAll env cfg fuel ms

/-- The lines a trace appends to a given file, in order. -/
def fileAppends (tr : List Action) (file : String) : List String :=
  tr.foldr
    (fun a acc =>
      match a with
      | Action.appendFile p line => if p == file then line :: acc else acc
      | _ => acc) []

/- ## Classification of actions: writes versus reads and synchronization -/

/-- Command names whose invocation writes to or reconfigures block devices.
Queries (pvdisplay, lvdisplay, blkid, which, bcache-super-show), kernel
re-read requests (partprobe), event settling (udevadm), module loading
(modprobe), activation (vgchange) and cache refreshes (pvscan, vgscan) do
not write to a device. -/
def writeHeads : List String :=
  ["dd", "sgdisk", "wipefs", "pvremove", "vgremove", "vgcreate", "lvcreate",
   "mdadm", "make-bcache", "cryptsetup", "mkswap", "mount", "yes"]

/-- Whether an action writes to a device or file. -/
def isWrite : Action → Bool
  | Action.subpCmd args =>
    match args with
    | [] => false
    | c :: _ => writeHeads.contains c || charsStartWith "mkfs.".data c.data
  | Action.sleep1 => false
  | Action.writeFile _ _ => true
  | Action.appendFile _ _ => true
  | Action.removeFile _ => true
  | Action.ensureDir _ => true
  | Action.partedSetFlag _ _ => true
  | Action.partedAdd _ _ _ _ => true
  | Action.partedCommit _ => true

/-- Shape of every action the resolver and devsync can record: a one-second
sleep, a partprobe, or a udevadm settle. -/
def devsyncShape (a : Action) : Prop :=
  a = Action.sleep1 ∨ (∃ p, a = Action.subpCmd ["partprobe", p]) ∨
    a = Action.subpCmd ["udevadm", "settle"]

theorem devsyncShape_nonwrite {a : Action} (h : devsyncShape a) :
    isWrite a = false := by
  rcases h with h | ⟨p, h⟩ | h <;> subst h
  · rfl
  · show (writeHeads.contains "partprobe" ||
      charsStartWith "mkfs.".data "partprobe".data) = false
    decide
  · show (writeHeads.contains "udevadm" ||
      charsStartWith "mkfs.".data "udevadm".data) = false
    decide

/- ## Trace membership through binds -/

theorem mem_bind_trace {α β : Type} {r : Run α} {f : α → Run β} {a : Action}
    (h : a ∈ (r >>= f).trace) : a ∈ r.trace ∨ ∃ b, a ∈ (f b).trace := by
  rw [run_bind_def] at h
  split at h
  · exact Or.inl h
  · rcases List.mem_append.mp h with h1 | h2
    · exact Or.inl h1
    · exact Or.inr ⟨_, h2⟩

theorem mem_emit_trace {a b : Action} (h : a ∈ (emit b).trace) : a = b := by
  simpa [emit] using h

theorem not_mem_pure_trace {α : Type} {a : Action} {x : α}
    (h : a ∈ (pure x : Run α).trace) : False := by
  simp [run_pure_def] at h

theorem not_mem_fail_trace {α : Type} {a : Action} {e : Err}
    (h : a ∈ (fail e : Run α).trace) : False := by
  simp [fail] at h

theorem not_mem_liftE_trace {α : Type} {a : Action} {x : Except Err α}
    (h : a ∈ (liftE x).trace) : False := by
  cases x <;> simp [liftE] at h

theorem mem_subp_trace {env : Env} {cmd : List String} {rcs : List Nat}
    {a : Action} (h : a ∈ (subp env cmd rcs).trace) : a = Action.subpCmd cmd := by
  simpa [subp] using h

theorem mem_subpCapture_trace {env : Env} {cmd : List String} {rcs : List Nat}
    {a : Action} (h : a ∈ (subpCapture env cmd rcs).trace) :
    a = Action.subpCmd cmd := by
  simpa [subpCapture] using h

/- ## Shape of the devsync and resolver traces -/

theorem pollExists_shape {env : Env} {p : String} :
    ∀ (k n : Nat) (a : Action), a ∈ (pollExists env p k n).trace →
      a = Action.sleep1 := by
  intro k n
  induction n generalizing k with
  | zero => intro a ha; exact absurd ha (by simp [pollExists, fail])
  | succ m ih =>
    intro a ha
    unfold pollExists at ha
    split at ha
    · exact absurd ha (by simp [run_pure_def])
    · rcases mem_bind_trace ha with h1 | ⟨b, h2⟩
      · exact mem_emit_trace h1
      · exact ih (k + 1) a h2

theorem devsync_shape {env : Env} {p : String} {a : Action}
    (h : a ∈ (devsync env p).trace) : devsyncShape a := by
  unfold devsync at h
  rcases mem_bind_trace h with h1 | ⟨b, h2⟩
  · exact Or.inr (Or.inl ⟨p, mem_subp_trace h1⟩)
  · rcases mem_bind_trace h2 with h3 | ⟨c, h4⟩
    · exact Or.inr (Or.inr (mem_subp_trace h3))
    · exact Or.inl (pollExists_shape 0 10 a h4)

theorem syncReturn_shape {env : Env} {p : String} {a : Action}
    (h : a ∈ (syncReturn env p).trace) : devsyncShape a := by
  unfold syncReturn at h
  rcases mem_bind_trace h with h1 | ⟨b, h2⟩
  · exact devsync_shape h1
  · exact absurd h2 (not_mem_pure_trace h2).elim

theorem resolveVol_shape {env : Env} {cfg : List Record} :
    ∀ (fuel : Nat) (v : Option String) (a : Action),
      a ∈ (resolveVol env cfg fuel v).trace → devsyncShape a := by
  intro fuel
  induction fuel with
  | zero => intro v a ha; exact absurd ha (by simp [resolveVol, fail])
  | succ n ih =>
    intro v a ha
    unfold resolveVol at ha
    split at ha
    · exact absurd ha (not_mem_fail_trace ha).elim
    · split at ha
      · -- partition branch
        rcases mem_bind_trace ha with h1 | ⟨b, h2⟩
        · exact ih _ a h1
        · split at h2
          · exact absurd h2 (not_mem_fail_trace h2).elim
          · rcases mem_bind_trace h2 with h3 | ⟨c, h4⟩
            · exact devsync_shape h3
            · exact absurd h4 (not_mem_pure_trace h4).elim
      · split at ha
        · -- disk branch
          rcases mem_bind_trace ha with h1 | ⟨b, h2⟩
          · split at h1
            · exact absurd h1 (not_mem_pure_trace h1).elim
            · split at h1
              · exact absurd h1 (not_mem_pure_trace h1).elim
              · exact absurd h1 (not_mem_fail_trace h1).elim
          · exact syncReturn_shape h2
        · split at ha
          · -- lvm_partition branch
            split at ha
            · exact absurd ha (not_mem_fail_trace ha).elim
            · split at ha
              · exact syncReturn_shape ha
              · exact absurd ha (not_mem_fail_trace ha).elim
          · split at ha
            · -- dm_crypt branch
              exact syncReturn_shape ha
            · split at ha
              · -- raid branch
                exact syncReturn_shape ha
              · split at ha
                · -- bcache branch
                  rcases mem_bind_trace ha with h1 | ⟨b, h2⟩
                  · exact ih _ a h1
                  · split at h2
                    · exact absurd h2 (not_mem_fail_trace h2).elim
                    · exact syncReturn_shape h2
                · exact absurd ha (not_mem_fail_trace ha).elim

/- ## Result characterization lemmas -/

theorem run_bind_result_ok {α β : Type} {r : Run α} {f : α → Run β} {a : α}
    (h : r.result = Except.ok a) : (r >>= f).result = (f a).result := by
  rw [run_bind_ok r f a h]

theorem run_bind_result_err {α β : Type} {r : Run α} {f : α → Run β} {e : Err}
    (h : r.result = Except.error e) : (r >>= f).result = Except.error e := by
  rw [run_bind_err r f e h]

instance {ε α : Type} [DecidableEq ε] [DecidableEq α] :
    DecidableEq (Except ε α) := fun x y =>
  match x, y with
  | Except.ok a, Except.ok b =>
    if h : a = b then isTrue (by rw [h])
    else isFalse (fun hh => h (Except.ok.inj hh))
  | Except.error e, Except.error f =>
    if h : e = f then isTrue (by rw [h])
    else isFalse (fun hh => h (Except.error.inj hh))
  | Except.ok _, Except.error _ => isFalse (fun hh => Except.noConfusion hh)
  | Except.error _, Except.ok _ => isFalse (fun hh => Except.noConfusion hh)

theorem contains_singleton_zero (c : Nat) :
    (([0] : List Nat).contains c) = (c == 0) := by
  cases c with
  | zero => rfl
  | succ n => rfl

theorem subp_of_allowed (env : Env) (cmd : List String) (rcs : List Nat)
    (h : rcs.contains (env.exitCode cmd) = true) :
    subp env cmd rcs = ⟨[Action.subpCmd cmd], Except.ok ()⟩ := by
  unfold subp
  rw [if_pos h]

theorem subp_of_disallowed (env : Env) (cmd : List String) (rcs : List Nat)
    (h : rcs.contains (env.exitCode cmd) = false) :
    subp env cmd rcs =
      ⟨[Action.subpCmd cmd],
       Except.error (Err.toolError cmd (env.exitCode cmd))⟩ := by
  unfold subp
  rw [if_neg (fun hc => by rw [h] at hc; exact Bool.noConfusion hc)]

theorem subp_zero_ok (env : Env) (cmd : List String)
    (h : env.exitCode cmd = 0) :
    subp env cmd [0] = ⟨[Action.subpCmd cmd], Except.ok ()⟩ := by
  apply subp_of_allowed
  rw [h]
  decide

theorem pollExists_ok_iff (env : Env) (p : String) :
    ∀ (n k : Nat), ((pollExists env p k n).result = Except.ok ()) ↔
      ∃ j, j < n ∧ env.pathExistsAt p (k + j) = true := by
  intro n
  induction n with
  | zero =>
    intro k
    simp [pollExists, fail]
  | succ m ih =>
    intro k
    unfold pollExists
    by_cases hex : env.pathExistsAt p k = true
    · rw [if_pos hex]
      simp only [run_pure_def]
      constructor
      · intro _
        exact ⟨0, by omega, by simpa using hex⟩
      · intro _
        trivial
    · rw [if_neg hex]
      rw [run_bind_result_ok (by rfl : (emit Action.sleep1).result = Except.ok ())]
      rw [ih (k + 1)]
      constructor
      · rintro ⟨j, hj, hx⟩
        refine ⟨j + 1, by omega, ?_⟩
        rwa [show k + (j + 1) = k + 1 + j by omega]
      · rintro ⟨j, hj, hx⟩
        cases j with
        | zero => exact absurd (by simpa using hx) hex
        | succ i =>
          refine ⟨i, by omega, ?_⟩
          rwa [show k + 1 + i = k + (i + 1) by omega]

theorem pollExists_timeout (env : Env) (p : String) :
    ∀ (n k : Nat), (∀ j, j < n → env.pathExistsAt p (k + j) = false) →
      (pollExists env p k n).result =
        Except.error (Err.deviceNotAppearing p) := by
  intro n
  induction n with
  | zero => intro k _; rfl
  | succ m ih =>
    intro k h
    unfold pollExists
    rw [if_neg (by simpa using h 0 (by omega))]
    rw [run_bind_result_ok (by rfl : (emit Action.sleep1).result = Except.ok ())]
    refine ih (k + 1) (fun j hj => ?_)
    have := h (j + 1) (by omega)
    rwa [show k + (j + 1) = k + 1 + j by omega] at this

theorem runAll_ok_iff (env : Env) (rcs : List Nat) :
    ∀ (cmds : List (List String)),
      ((runAll env rcs cmds).result = Except.ok ()) ↔
        ∀ c ∈ cmds, rcs.contains (env.exitCode c) = true := by
  intro cmds
  induction cmds with
  | nil => simp [runAll, run_pure_def]
  | cons c cs ih =>
    unfold runAll
    by_cases h : rcs.contains (env.exitCode c) = true
    · rw [run_bind_result_ok (by rw [subp_of_allowed env c rcs h] :
        (subp env c rcs).result = Except.ok ())]
      rw [ih]
      constructor
      · intro hall d hd
        rcases List.mem_cons.mp hd with hdc | hdcs
        · subst hdc; exact h
        · exact hall d hdcs
      · intro hall d hd
        exact hall d (List.mem_cons_of_mem c hd)
    · rw [run_bind_result_err (by
        rw [subp_of_disallowed env c rcs (by simpa using h)] :
        (subp env c rcs).result =
          Except.error (Err.toolError c (env.exitCode c)))]
      constructor
      · intro hbad
        exact absurd hbad (by simp)
      · intro hall
        exact absurd (hall c (List.mem_cons_self c cs)) h

theorem runAll_trace_all_allowed (env : Env) (rcs : List Nat) :
    ∀ (cmds : List (List String)),
      (∀ c ∈ cmds, rcs.contains (env.exitCode c) = true) →
      (runAll env rcs cmds).trace = cmds.map Action.subpCmd := by
  intro cmds
  induction cmds with
  | nil => intro _; rfl
  | cons c cs ih =>
    intro h
    unfold runAll
    rw [run_bind_ok _ _ () (by
      rw [subp_of_allowed env c rcs (h c (List.mem_cons_self c cs))])]
    show (subp env c rcs).trace ++ _ = _
    rw [subp_of_allowed env c rcs (h c (List.mem_cons_self c cs))]
    simp [ih (fun d hd => h d (List.mem_cons_of_mem c hd))]

/- ## A base environment for concrete runs -/

/-- A benign live system: every tool exits 0 with empty output, every node
exists immediately, disks have a 512-byte sector size and no partitions,
the target is /target and fstab is /tmp/fstab. -/
def env0 : Env :=
  { exitCode := fun _ => 0,
    output := fun _ => "",
    pathExistsAt := fun _ _ => true,
    diskPartitions := fun _ => [],
    sectorSize := fun _ => 512,
    lookupDisk := fun _ => "/dev/disk-by-serial0",
    bcacheSlaves := [],
    tempFile := "/tmp/keyfile0",
    volumeUuid := fun _ => "uuid-1234",
    partPathAfterAdd := fun d _ => d ++ "pN",
    stateTarget := "/target",
    stateFstab := some "/tmp/fstab" }

/- ## C3: the device-node synchronizer -/

/-- The C3 reading of devsync: a partprobe failure is ignored, so whenever
udevadm settle succeeds and the node already exists, devsync succeeds
regardless of the partprobe exit code. -/
def claimDevsyncIgnoresPartprobe : Prop :=
  ∀ (env : Env) (p : String),
    env.exitCode ["udevadm", "settle"] = 0 →
    env.pathExistsAt p 0 = true →
    (devsync env p).result = Except.ok ()

/-- An environment in which partprobe exits 1 and everything else is
benign. -/
def envPartprobeFails : Env :=
  { env0 with exitCode := fun c => if c == ["partprobe", "/dev/sda"] then 1 else 0 }

/-- C3, counterexample: devsync does not ignore a partprobe failure.  With
partprobe exiting 1, udevadm fine and the node present, devsync still
fails, because partprobe runs through the subprocess gateway with the
default allow-list of exit code 0 only. -/
theorem devsync_partprobe_not_ignored : ¬ claimDevsyncIgnoresPartprobe := by
  intro h
  have := h envPartprobeFails "/dev/sda" (by decide) (by decide)
  exact absurd this (by decide)

/-- C3 (amended): devsync first runs partprobe, and a non-zero partprobe
exit aborts the operation with a ToolError before udevadm settle runs;
otherwise it settles udev and checks existence of the path up to 10 times
at 1-second intervals, returning as soon as the path exists and failing
with the device-not-appearing OSError only on timeout. -/
theorem devsync_characterization :
    (∀ (env : Env) (p : String), env.exitCode ["partprobe", p] ≠ 0 →
      devsync env p =
        ⟨[Action.subpCmd ["partprobe", p]],
         Except.error (Err.toolError ["partprobe", p]
           (env.exitCode ["partprobe", p]))⟩) ∧
    (∀ (env : Env) (p : String),
      env.exitCode ["partprobe", p] = 0 →
      env.exitCode ["udevadm", "settle"] = 0 →
      (((devsync env p).result = Except.ok ()) ↔
        ∃ j, j < 10 ∧ env.pathExistsAt p j = true) ∧
      ((∀ j, j < 10 → env.pathExistsAt p j = false) →
        (devsync env p).result = Except.error (Err.deviceNotAppearing p))) := by
  constructor
  · intro env p h
    have hc : (([0] : List Nat).contains (env.exitCode ["partprobe", p])) = false := by
      rw [contains_singleton_zero]
      simpa using h
    unfold devsync
    rw [run_bind_err _ _ (Err.toolError ["partprobe", p]
        (env.exitCode ["partprobe", p]))
      (by rw [subp_of_disallowed env ["partprobe", p] [0] hc])]
    rw [subp_of_disallowed env ["partprobe", p] [0] hc]
  · intro env p hpp hud
    have e1 : (subp env ["partprobe", p] [0]).result = Except.ok () := by
      rw [subp_zero_ok env ["partprobe", p] hpp]
    have e2 : (subp env ["udevadm", "settle"] [0]).result = Except.ok () := by
      rw [subp_zero_ok env ["udevadm", "settle"] hud]
    have hres : (devsync env p).result = (pollExists env p 0 10).result := by
      unfold devsync
      rw [run_bind_result_ok e1, run_bind_result_ok e2]
    constructor
    · rw [hres, pollExists_ok_iff env p 10 0]
      simp
    · intro hnone
      rw [hres]
      exact pollExists_timeout env p 10 0 (by simpa using hnone)

/-- C3 witness: the characterization applied to concrete environments; the
failing-partprobe case yields the ToolError, and the benign case succeeds
because the node exists at the first poll. -/
theorem devsync_characterization_witness :
    devsync envPartprobeFails "/dev/sda" =
      ⟨[Action.subpCmd ["partprobe", "/dev/sda"]],
       Except.error (Err.toolError ["partprobe", "/dev/sda"] 1)⟩ ∧
    (devsync env0 "/dev/sda").result = Except.ok () := by
  constructor
  · have := devsync_characterization.1 envPartprobeFails "/dev/sda" (by decide)
    simpa using this
  · exact (devsync_characterization.2 env0 "/dev/sda" (by decide) (by decide)).1.mpr
      ⟨0, by omega, by decide⟩

/- ## C4: the wipe engine -/

/-- The C4 reading of the superblock mode exit-code discipline: only exit
code 0 is accepted for the sgdisk command, anything else is fatal. -/
def claimWipePerModeCodes : Prop :=
  ∀ (env : Env) (path : String),
    env.exitCode ["sgdisk", "--zap-all", path] ≠ 0 →
    (wipe_volume env path "superblock").result ≠ Except.ok ()

/-- An environment in which sgdisk exits 5 and everything else exits 0. -/
def envSgdisk5 : Env :=
  { env0 with exitCode := fun c => if c == ["sgdisk", "--zap-all", "/dev/sda"] then 5 else 0 }

/-- C4, counterexample: the wipe engine accepts exit code 5 from sgdisk in
superblock mode and completes successfully, because every wipe command runs
with the single allow-list of codes 0, 1, 2 and 5. -/
theorem wipe_superblock_accepts_nonzero : ¬ claimWipePerModeCodes := by
  intro h
  exact h envSgdisk5 "/dev/sda" (by decide) (by decide)

/-- C4 (amended): the wipe engine runs exactly the commands listed for each
mode (sgdisk then wipefs for superblock, the dd for zero and random, and
pvremove plus the pvscan and vgscan cache refreshes for pvremove), but runs
every command of every mode with the common accepted exit codes 0, 1, 2 and
5; a command exiting outside that set is a ToolError, and an unknown mode
fails with ValueError before running any command. -/
theorem wipe_volume_characterization :
    (∀ (env : Env) (path : String),
      wipe_volume env path "superblock" =
        runAll env [0, 1, 2, 5] [["sgdisk", "--zap-all", path],
                                 ["wipefs", "-a", path]] ∧
      wipe_volume env path "zero" =
        runAll env [0, 1, 2, 5] [["dd", "bs=512", "if=/dev/zero", "of=" ++ path]] ∧
      wipe_volume env path "random" =
        runAll env [0, 1, 2, 5] [["dd", "bs=512", "if=/dev/urandom", "of=" ++ path]] ∧
      wipe_volume env path "pvremove" =
        runAll env [0, 1, 2, 5] [["pvremove", "--force", "--force", "--yes", path],
                                 ["pvscan", "--cache"],
                                 ["vgscan", "--mknodes", "--cache"]]) ∧
    (∀ (env : Env) (path mode : String),
      mode ∉ (["pvremove", "zero", "random", "superblock"] : List String) →
      wipe_volume env path mode =
        ⟨[], Except.error (Err.configError "wipe mode not supported")⟩) ∧
    (∀ (env : Env) (rcs : List Nat) (cmds : List (List String)),
      (((runAll env rcs cmds).result = Except.ok ()) ↔
        ∀ c ∈ cmds, rcs.contains (env.exitCode c) = true) ∧
      ((∀ c ∈ cmds, rcs.contains (env.exitCode c) = true) →
        (runAll env rcs cmds).trace = cmds.map Action.subpCmd)) := by
  refine ⟨fun env path => ⟨rfl, rfl, rfl, rfl⟩, ?_, ?_⟩
  · intro env path mode hmode
    have hnone : wipeCmds path mode = none := by
      unfold wipeCmds
      split
      · exact absurd (by simp) hmode
      · exact absurd (by simp) hmode
      · exact absurd (by simp) hmode
      · exact absurd (by simp) hmode
      · rfl
    unfold wipe_volume
    rw [hnone]
    rfl
  · intro env rcs cmds
    exact ⟨runAll_ok_iff env rcs cmds, runAll_trace_all_allowed env rcs cmds⟩

/-- C4 witness: the characterization applied concretely: an unknown mode
fails without running anything, and a superblock wipe in the sgdisk-exits-5
environment still runs both commands and succeeds. -/
theorem wipe_volume_characterization_witness :
    wipe_volume env0 "/dev/sda" "headerwipe" =
      ⟨[], Except.error (Err.configError "wipe mode not supported")⟩ ∧
    (runAll envSgdisk5 [0, 1, 2, 5] [["sgdisk", "--zap-all", "/dev/sda"],
        ["wipefs", "-a", "/dev/sda"]]).result = Except.ok () := by
  constructor
  · exact wipe_volume_characterization.2.1 env0 "/dev/sda" "headerwipe" (by decide)
  · exact ((wipe_volume_characterization.2.2 envSgdisk5 [0, 1, 2, 5]
      [["sgdisk", "--zap-all", "/dev/sda"], ["wipefs", "-a", "/dev/sda"]]).1).mpr
      (by decide)

/- ## C5: the partition offset computation -/

/-- The offset rule as the specification states it (spec 4.6.2 step 3):
first the partition-number-one case, by parent table type, then the
offset-from-previous case by the class of the partition at index
partnumber minus two. -/
def offsetRuleOfSpec (cfg : List Record) (device : Option String)
    (parts : List PPart) (sectorSize : Nat) (pn : Nat) : Except Err Nat :=
  if pn = 1 then
    match lookup cfg device with
    | none => Except.error (Err.pyCrash "device record lookup")
    | some d =>
      if d.ptable == some "msdos" then Except.ok 2048
      else
        match sizeToSectors 16 "KiB" sectorSize with
        | some s => Except.ok (s + 2)
        | none => Except.error (Err.pyCrash "size unit")
  else
    match parts[pn - 2]? with
    | none => Except.error (Err.configError "previous partition does not exist")
    | some prev =>
      match prev.ptype with
      | PartType.normal => Except.ok (prev.pend + 1)
      | PartType.extended => Except.ok (prev.pstart + 1)
      | PartType.logical => Except.ok (prev.pend + 2)

/-- C5: the offset computation of the partition handler follows the stated
rule for every partition number at least one: 2048 for number one on an
msdos parent, sixteen KiB in sectors plus two otherwise; for number n
greater than one, end plus one after a normal partition at index n minus
two, start plus one after an extended one, end plus two after a logical
one; and a missing previous partition is a ValueError. -/
theorem offset_matches_spec (cfg : List Record) (device : Option String)
    (parts : List PPart) (sectorSize : Nat) (pn : Nat) (h : 1 ≤ pn) :
    computeOffset cfg device parts sectorSize pn =
      offsetRuleOfSpec cfg device parts sectorSize pn := by
  cases pn with
  | zero => omega
  | succ m =>
    cases m with
    | zero => rfl
    | succ n =>
      unfold computeOffset offsetRuleOfSpec
      rw [if_pos (show n + 1 + 1 > 1 by omega), if_neg (show ¬(n + 1 + 1 = 1) by omega)]
      cases hp : parts[n + 1 + 1 - 2]? with
      | none => rfl
      | some prev =>
        cases hpt : prev.ptype <;> simp [hpt]

/-- C5 witness: the rule applied concretely: a first partition on a gpt
disk with 512-byte sectors starts at sector 34, and a partition following
a normal partition that ends at sector 3047 starts at sector 3048. -/
theorem offset_matches_spec_witness :
    computeOffset [{ rec0 with id := "d", typ := "disk", ptable := some "gpt" }] (some "d") [] 512 1 = Except.ok 34 ∧
    computeOffset [] (some "d")
        [⟨PartType.normal, 2048, 1000, "/dev/sda1"⟩] 512 2 = Except.ok 3048 := by
  constructor
  · rw [offset_matches_spec _ _ _ _ 1 (by omega)]
    decide
  · rw [offset_matches_spec _ _ _ _ 2 (by omega)]
    decide

/- ## C6: the default partition number -/

/-- Count of partition records for the same parent device among the records
before this one in input order. -/
def countEarlierParts (pre : List Record) (vol : Record) : Nat :=
  (pre.filter (fun r => r.typ == "partition" && r.device == vol.device)).length

theorem resolverPartNumberLoop_spec (vol : Record) (hty : vol.typ = "partition") :
    ∀ (pre : List Record) (post : List Record) (acc : Nat),
      (∀ r ∈ pre, r.id ≠ vol.id) →
      resolverPartNumberLoop vol (pre ++ vol :: post) acc =
        acc + countEarlierParts pre vol := by
  intro pre
  induction pre with
  | nil =>
    intro post acc _
    show resolverPartNumberLoop vol (vol :: post) acc = acc + countEarlierParts [] vol
    unfold resolverPartNumberLoop
    rw [if_pos (by simp [hty]), if_pos (by simp)]
    simp [countEarlierParts]
  | cons r rs ih =>
    intro post acc hid
    show resolverPartNumberLoop vol (r :: (rs ++ vol :: post)) acc = _
    unfold resolverPartNumberLoop
    by_cases hmatch : (r.typ == "partition" && r.device == vol.device) = true
    · rw [if_pos hmatch]
      have hne : (r.id == vol.id) = false := by
        have h1 := hid r (List.mem_cons_self r rs)
        simpa using h1
      rw [if_neg (by simp [hne])]
      rw [ih post (acc + 1) (fun q hq => hid q (List.mem_cons_of_mem r hq))]
      simp [countEarlierParts, List.filter_cons, hmatch]
      omega
    · rw [if_neg hmatch]
      rw [ih post acc (fun q hq => hid q (List.mem_cons_of_mem r hq))]
      simp [countEarlierParts, List.filter_cons,
        (by simpa using hmatch : (r.typ == "partition" && r.device == vol.device) = false)]

/-- C6 (amended): when the number attribute is absent, the path resolver
uses one plus the count of partition records declared earlier in input
order with the same device; the partition handler instead uses one plus the
count of partitions currently present on the parent disk, which coincides
with the former only when the on-disk table holds exactly the
earlier-declared partitions. -/
theorem default_partnumber_characterization :
    (∀ (pre post : List Record) (vol : Record),
      vol.typ = "partition" → (∀ r ∈ pre, r.id ≠ vol.id) →
      pyNum vol.number = none →
      resolverNumberOf (pre ++ vol :: post) vol = 1 + countEarlierParts pre vol) ∧
    (∀ (number : Option Nat) (parts : List PPart), pyNum number = none →
      handlerPartNumber number parts = parts.length + 1) := by
  constructor
  · intro pre post vol hty hid hnum
    unfold resolverNumberOf
    rw [hnum]
    exact resolverPartNumberLoop_spec vol hty pre post 1 hid
  · intro number parts hnum
    unfold handlerPartNumber
    rw [hnum]

/-- A gpt disk record identified by its literal path. -/
def recDiskD : Record :=
  { rec0 with
    id := "d", typ := "disk", path := some "/dev/sda", ptable := some "gpt" }

/-- A partition record on that disk with no number attribute. -/
def recPartP1 : Record :=
  { rec0 with
    id := "p1", typ := "partition", device := some "d", size := some "1MiB" }

/-- C6 witness: a partition record with no earlier partition records for
its device resolves to number one, and the handler with an empty on-disk
table also uses number one. -/
theorem default_partnumber_witness :
    resolverNumberOf [recPartP1] recPartP1 = 1 ∧
    handlerPartNumber none [] = 1 := by
  constructor
  · have := default_partnumber_characterization.1 [] [] recPartP1
      rfl (by intro r hr; exact absurd hr (by simp)) rfl
    simpa [countEarlierParts] using this
  · have := default_partnumber_characterization.2 none [] rfl
    simpa using this

/-- The C6 reading: both the resolver and the handler derive the default
partition number from the count of earlier partition records for the same
device. -/
def claimDefaultNumberFromConfig : Prop :=
  ∀ (pre post : List Record) (vol : Record) (parts : List PPart),
    vol.typ = "partition" → (∀ r ∈ pre, r.id ≠ vol.id) →
    pyNum vol.number = none →
    resolverNumberOf (pre ++ vol :: post) vol = 1 + countEarlierParts pre vol ∧
    handlerPartNumber vol.number parts = 1 + countEarlierParts pre vol

/-- A disk with one pre-existing partition on it. -/
def envOnePart : Env :=
  { env0 with diskPartitions := fun _ => [⟨PartType.normal, 2048, 1000, "/dev/sda1"⟩] }

/-- The two-record configuration: a gpt disk and one partition record with
no number attribute. -/
def cfgDiskPart : List Record := [recDiskD, recPartP1]

/-- C6, counterexample: the handler numbers an absent-number partition from
the live disk, not the configuration.  With no earlier partition records
but one partition already on the disk, the handler uses number 2 (the claim
says 1), and the full partition handler correspondingly creates the new
partition at sector 3048, offset from the existing on-disk partition, not
at the first-partition gpt offset 34. -/
theorem handler_partnumber_from_disk : ¬ claimDefaultNumberFromConfig ∧
    Action.partedAdd "/dev/sda" 3048 2048 PartType.normal ∈
      (partition_handler envOnePart cfgDiskPart 5 recPartP1).trace := by
  constructor
  · intro h
    have := (h [] [] recPartP1
      [⟨PartType.normal, 2048, 1000, "/dev/sda1"⟩]
      rfl (by intro r hr; exact absurd hr (by simp)) rfl).2
    simp [handlerPartNumber, pyNum, countEarlierParts, recPartP1, rec0] at this
  · decide

/- ## C1: ptable on lvm_partition and bcache records -/

theorem mem_bind_left {α β : Type} {r : Run α} {f : α → Run β} {a : Action}
    (h : a ∈ r.trace) : a ∈ (r >>= f).trace := by
  rw [run_bind_def]
  split
  · exact h
  · exact List.mem_append_left _ h

/-- The C1 reading: a ptable attribute on an lvm_partition or bcache record
is rejected before any destructive action, so no lvcreate and no
make-bcache invocation can appear in the trace of such a handler run. -/
def claimNoPtableDestructive : Prop :=
  ∀ (env : Env) (cfg : List Record) (fuel : Nat) (info : Record),
    pyTruthy info.ptable = true →
    (∀ args, Action.subpCmd ("lvcreate" :: args) ∉
       (lvm_partition_handler env cfg fuel info).trace) ∧
    (∀ args, Action.subpCmd ("make-bcache" :: args) ∉
       (bcache_handler env cfg fuel info).trace)

/-- The volgroup record for the C1 counterexample. -/
def recVg0 : Record :=
  { rec0 with
    id := "vg0", typ := "lvm_volgroup", name := some "vg0n",
    devices := some ["d1"] }

/-- An lvm_partition record that declares a ptable. -/
def recLv1 : Record :=
  { rec0 with
    id := "lv1", typ := "lvm_partition", volgroup := some "vg0",
    name := some "lv1n", ptable := some "gpt" }

/-- The configuration for the C1 counterexample. -/
def cfgLvm : List Record := [recVg0, recLv1]

/-- C1, counterexample: running the lvm partition handler on a record with
ptable gpt in a benign environment invokes lvcreate; the ptable rejection
only happens afterwards, at the end of the handler. -/
theorem lvcreate_runs_despite_ptable : ¬ claimNoPtableDestructive := by
  intro h
  have := (h env0 cfgLvm 5 recLv1 rfl).1 ["vg0n", "-n", "lv1n", "-l", "100%FREE"]
  exact this (by decide)

/-- C1 (amended): a ptable attribute on an lvm_partition or bcache record
does make the handler fail with a ValueError, but the check is the final
statement of each handler, not an entry check: on the non-preserve path the
lvm partition handler has already invoked lvcreate, and the bcache handler
has already invoked make-bcache, before the rejection fires. -/
theorem ptable_rejected_after_create :
    (∀ (env : Env) (cfg : List Record) (fuel : Nat) (info : Record),
      pyTruthy info.ptable = true →
      (lvm_partition_handler env cfg fuel info).result ≠ Except.ok ()) ∧
    (∀ (env : Env) (cfg : List Record) (fuel : Nat) (info : Record),
      pyTruthy info.ptable = true →
      (bcache_handler env cfg fuel info).result ≠ Except.ok ()) ∧
    (∀ (env : Env) (cfg : List Record) (fuel : Nat) (info vgRec : Record),
      lookup cfg info.volgroup = some vgRec →
      pyTruthy vgRec.name = true → pyTruthy info.name = true →
      info.preserve = false → vgRec.preserve = false →
      Action.subpCmd (lvcreateCmd (vgRec.name.getD "") (info.name.getD "") info.size) ∈
        (lvm_partition_handler env cfg fuel info).trace) ∧
    (∀ (env : Env) (cfg : List Record) (fuel : Nat) (info : Record)
       (b c : String),
      (resolveVol env cfg fuel info.backing_device).result = Except.ok b →
      (resolveVol env cfg fuel info.cache_device).result = Except.ok c →
      b.data.isEmpty = false → c.data.isEmpty = false →
      env.exitCode ["modprobe", "bcache"] = 0 →
      Action.subpCmd ["make-bcache", "-B", b, "-C", c] ∈
        (bcache_handler env cfg fuel info).trace) := by
  refine ⟨?_, ?_, ?_, ?_⟩
  · intro env cfg fuel info hpt hok
    unfold lvm_partition_handler at hok
    split at hok
    · exact absurd hok (by decide)
    · split at hok
      · exact absurd hok (by decide)
      · split at hok
        · exact absurd hok (by decide)
        · obtain ⟨u, _, hu2⟩ := run_bind_ok_inv _ _ _ hok
          simp [hpt, fail] at hu2
  · intro env cfg fuel info hpt hok
    unfold bcache_handler at hok
    obtain ⟨b, _, h1⟩ := run_bind_ok_inv _ _ _ hok
    obtain ⟨c, _, h2⟩ := run_bind_ok_inv _ _ _ h1
    split at h2
    · exact absurd h2 (by decide)
    · obtain ⟨u1, _, h3⟩ := run_bind_ok_inv _ _ _ h2
      obtain ⟨u2, _, h4⟩ := run_bind_ok_inv _ _ _ h3
      obtain ⟨u3, _, h5⟩ := run_bind_ok_inv _ _ _ h4
      simp [hpt, fail] at h5
  · intro env cfg fuel info vgRec hl hn hm hp hvp
    unfold lvm_partition_handler
    split
    · rename_i hnone
      rw [hl] at hnone
      exact absurd hnone (by simp)
    · rename_i vgRec2 hsome
      rw [hl] at hsome
      have hv2 : vgRec2 = vgRec := (Option.some.inj hsome).symm
      subst hv2
      rw [if_neg (by simp [hn]), if_neg (by simp [hm])]
      apply mem_bind_left
      unfold lvmPartBranch
      rw [if_neg (by simp [hp]), if_neg (by simp [hvp])]
      simp [subp]
  · intro env cfg fuel info b c hb hc hbne hcne hmod
    unfold bcache_handler
    rw [run_bind_ok _ _ b hb]
    show _ ∈ _ ++ _
    apply List.mem_append_right
    rw [run_bind_ok _ _ c hc]
    apply List.mem_append_right
    rw [if_neg (by simp [hbne, hcne])]
    rw [run_bind_ok _ _ () (by rw [subp_zero_ok env ["modprobe", "bcache"] hmod])]
    apply List.mem_append_right
    apply mem_bind_left
    simp [subp]

/-- A backing disk for the bcache counterexample configuration. -/
def recDiskB : Record :=
  { rec0 with id := "bd", typ := "disk", path := some "/dev/sdb" }

/-- A cache disk for the bcache counterexample configuration. -/
def recDiskC : Record :=
  { rec0 with id := "cd", typ := "disk", path := some "/dev/sdc" }

/-- A bcache record that declares a ptable. -/
def recBc : Record :=
  { rec0 with
    id := "bc", typ := "bcache", backing_device := some "bd",
    cache_device := some "cd", ptable := some "gpt" }

/-- The configuration for the bcache side of C1. -/
def cfgBcache : List Record := [recDiskB, recDiskC, recBc]

/-- C1 witness: at the concrete configurations, the amended theorem yields
the failing results and the lvcreate and make-bcache invocations already in
the traces. -/
theorem ptable_rejected_after_create_witness :
    (lvm_partition_handler env0 cfgLvm 5 recLv1).result ≠ Except.ok () ∧
    (bcache_handler env0 cfgBcache 5 recBc).result ≠ Except.ok () ∧
    Action.subpCmd (lvcreateCmd "vg0n" "lv1n" none) ∈
      (lvm_partition_handler env0 cfgLvm 5 recLv1).trace ∧
    Action.subpCmd ["make-bcache", "-B", "/dev/sdb", "-C", "/dev/sdc"] ∈
      (bcache_handler env0 cfgBcache 5 recBc).trace := by
  refine ⟨?_, ?_, ?_, ?_⟩
  · exact ptable_rejected_after_create.1 env0 cfgLvm 5 recLv1 rfl
  · exact ptable_rejected_after_create.2.1 env0 cfgBcache 5 recBc rfl
  · exact ptable_rejected_after_create.2.2.1 env0 cfgLvm 5 recLv1 recVg0
      (by decide) rfl rfl rfl rfl
  · exact ptable_rejected_after_create.2.2.2 env0 cfgBcache 5 recBc
      "/dev/sdb" "/dev/sdc" (by decide) (by decide) rfl rfl rfl

/- ## C2: preserve is read-only -/

theorem liftE_result {α : Type} (x : Except Err α) : (liftE x).result = x := by
  cases x <;> rfl

theorem subpCapture_ok_inv {env : Env} {cmd : List String} {rcs : List Nat}
    {s : String} (h : (subpCapture env cmd rcs).result = Except.ok s) :
    s = env.output cmd := by
  unfold subpCapture at h
  by_cases hc : rcs.contains (env.exitCode cmd) = true
  · rw [if_pos hc] at h
    exact (Except.ok.inj h).symm
  · rw [if_neg hc] at h
    exact absurd h (by simp)

theorem resolveManyChecked_shape {env : Env} {cfg : List Record} {fuel : Nat} :
    ∀ (ids : List String) (a : Action),
      a ∈ (resolveManyChecked env cfg fuel ids).trace → devsyncShape a := by
  intro ids
  induction ids with
  | nil => intro a ha; exact absurd ha (not_mem_pure_trace ha).elim
  | cons d ds ih =>
    intro a ha
    unfold resolveManyChecked at ha
    split at ha
    · exact absurd ha (not_mem_fail_trace ha).elim
    · rcases mem_bind_trace ha with h1 | ⟨p, h2⟩
      · exact resolveVol_shape fuel (some d) a h1
      · rcases mem_bind_trace h2 with h3 | ⟨ps, h4⟩
        · exact ih a h3
        · exact absurd h4 (not_mem_pure_trace h4).elim

/-- C2: preserve is read-only and verify-or-fail.  First conjunct: a
partition handler run on a record with preserve writes nothing: every
recorded action is a non-write (partprobe, udevadm settle, or a sleep).
Second: the same for the lvm volgroup handler (its extra actions are the
vgchange activation and the pvdisplay query, also non-writes).  Third: the
preserve comparison of the partition handler succeeds exactly when the
existing partition agrees on geometry start and length, and a mismatch is
the fatal ValueError.  Fourth: a successful preserving partition handler
run implies the on-disk partition found at the resolved path has exactly
the computed start and length.  Fifth: a successful preserving volgroup
handler run implies the pvdisplay-derived path set for the volgroup name
equals the resolved declared device set. -/
theorem preserve_read_only :
    (∀ (env : Env) (cfg : List Record) (fuel : Nat) (info : Record),
      info.preserve = true →
      ∀ a ∈ (partition_handler env cfg fuel info).trace, isWrite a = false) ∧
    (∀ (env : Env) (cfg : List Record) (fuel : Nat) (info : Record),
      info.preserve = true →
      ∀ a ∈ (lvm_volgroup_handler env cfg fuel info).trace, isWrite a = false) ∧
    (∀ (p : PPart) (offset lenS : Nat),
      (partitionPreserveCheck p offset lenS = Except.ok () ↔
        (p.pstart = offset ∧ p.plength = lenS)) ∧
      ((p.pstart ≠ offset ∨ p.plength ≠ lenS) →
        partitionPreserveCheck p offset lenS =
          Except.error (Err.configError "partition preserve mismatch"))) ∧
    (∀ (env : Env) (cfg : List Record) (fuel : Nat) (info : Record),
      info.preserve = true →
      (partition_handler env cfg fuel info).result = Except.ok () →
      ∃ disk offset lenS ppath p,
        (resolveVol env cfg fuel info.device).result = Except.ok disk ∧
        computeOffset cfg info.device (env.diskPartitions disk)
          (env.sectorSize disk)
          (handlerPartNumber info.number (env.diskPartitions disk)) =
            Except.ok offset ∧
        computeLength (info.size.getD "") (env.sectorSize disk) =
          Except.ok lenS ∧
        (resolveVol env cfg fuel (some info.id)).result = Except.ok ppath ∧
        (env.diskPartitions disk).find? (fun q => q.path == ppath) = some p ∧
        p.pstart = offset ∧ p.plength = lenS) ∧
    (∀ (env : Env) (cfg : List Record) (fuel : Nat) (info : Record),
      info.preserve = true →
      (lvm_volgroup_handler env cfg fuel info).result = Except.ok () →
      ∃ paths,
        (resolveManyChecked env cfg fuel (info.devices.getD [])).result =
          Except.ok paths ∧
        eqAsSets (vgCurrentPaths (info.name.getD "")
          (env.output pvdisplayCmd)) paths = true) := by
  refine ⟨?_, ?_, ?_, ?_, ?_⟩
  · intro env cfg fuel info hpres a ha
    unfold partition_handler at ha
    split at ha
    · exact absurd ha (not_mem_fail_trace ha).elim
    · split at ha
      · exact absurd ha (not_mem_fail_trace ha).elim
      · rcases mem_bind_trace ha with h1 | ⟨disk, h2⟩
        · exact devsyncShape_nonwrite (resolveVol_shape fuel info.device a h1)
        · unfold partitionOnDisk at h2
          rcases mem_bind_trace h2 with h3 | ⟨offset, h4⟩
          · exact absurd h3 (not_mem_liftE_trace h3).elim
          · rcases mem_bind_trace h4 with h5 | ⟨lenS, h6⟩
            · exact absurd h5 (not_mem_liftE_trace h5).elim
            · rw [if_pos hpres] at h6
              unfold partitionPreserveBranch at h6
              rcases mem_bind_trace h6 with h7 | ⟨ppath, h8⟩
              · exact devsyncShape_nonwrite
                  (resolveVol_shape fuel (some info.id) a h7)
              · split at h8
                · exact absurd h8 (not_mem_fail_trace h8).elim
                · exact absurd h8 (not_mem_liftE_trace h8).elim
  · intro env cfg fuel info hpres a ha
    unfold lvm_volgroup_handler at ha
    split at ha
    · exact absurd ha (not_mem_fail_trace ha).elim
    · split at ha
      · exact absurd ha (not_mem_fail_trace ha).elim
      · rcases mem_bind_trace ha with h1 | ⟨paths, h2⟩
        · exact devsyncShape_nonwrite
            (resolveManyChecked_shape (info.devices.getD []) a h1)
        · rcases mem_bind_trace h2 with h3 | ⟨u, h4⟩
          · have := mem_subp_trace h3
            subst this
            decide
          · rcases mem_bind_trace h4 with h5 | ⟨out, h6⟩
            · have := mem_subpCapture_trace h5
              subst this
              decide
            · split at h6
              · exact absurd h6 (not_mem_pure_trace h6).elim
              · exact absurd h6 (not_mem_fail_trace h6).elim
  · intro p offset lenS
    constructor
    · unfold partitionPreserveCheck
      split
      · constructor
        · intro h; exact absurd h (by simp)
        · rename_i hbad
          intro h
          exact absurd (Or.imp (fun x => x h.1) (fun x => x h.2)
            (hbad.imp id id)) (by tauto)
      · rename_i hgood
        push_neg at hgood
        constructor
        · intro _; exact hgood
        · intro _; rfl
    · intro hmis
      unfold partitionPreserveCheck
      rw [if_pos hmis]
  · intro env cfg fuel info hpres hok
    unfold partition_handler at hok
    split at hok
    · exact absurd hok (by decide)
    · split at hok
      · exact absurd hok (by decide)
      · obtain ⟨disk, hd, h1⟩ := run_bind_ok_inv _ _ _ hok
        unfold partitionOnDisk at h1
        obtain ⟨offset, ho, h2⟩ := run_bind_ok_inv _ _ _ h1
        obtain ⟨lenS, hl, h3⟩ := run_bind_ok_inv _ _ _ h2
        rw [if_pos hpres] at h3
        unfold partitionPreserveBranch at h3
        obtain ⟨ppath, hp, h4⟩ := run_bind_ok_inv _ _ _ h3
        split at h4
        · exact absurd h4 (by decide)
        · rename_i p hfind
          rw [liftE_result] at h4
          refine ⟨disk, offset, lenS, ppath, p, hd, ?_, ?_, hp, hfind, ?_⟩
          · rw [liftE_result] at ho; exact ho
          · rw [liftE_result] at hl; exact hl
          · unfold partitionPreserveCheck at h4
            split at h4
            · exact absurd h4 (by decide)
            · rename_i hgood
              push_neg at hgood
              exact hgood
  · intro env cfg fuel info hpres hok
    unfold lvm_volgroup_handler at hok
    split at hok
    · exact absurd hok (by decide)
    · split at hok
      · exact absurd hok (by decide)
      · obtain ⟨paths, hp, h1⟩ := run_bind_ok_inv _ _ _ hok
        obtain ⟨u, hu, h2⟩ := run_bind_ok_inv _ _ _ h1
        obtain ⟨out, hout, h3⟩ := run_bind_ok_inv _ _ _ h2
        have hout2 := subpCapture_ok_inv hout
        subst hout2
        split at h3
        · rename_i hset
          exact ⟨paths, hp, hset⟩
        · exact absurd h3 (by decide)

/-- A preserved partition record matching the on-disk geometry used in the
C2 witness. -/
def recPartPres : Record :=
  { rec0 with
    id := "p1", typ := "partition", device := some "d", size := some "1MiB",
    number := some 1, preserve := true }

/-- Configuration for the preserved-partition witness. -/
def cfgPres : List Record := [recDiskD, recPartPres]

/-- Environment whose disk holds exactly the declared partition: start 34
(the gpt first-partition offset at 512-byte sectors), length 2048 sectors
(1 MiB). -/
def envPres : Env :=
  { env0 with diskPartitions := fun _ => [⟨PartType.normal, 34, 2048, "/dev/sda1"⟩] }

/-- A preserved volgroup record over the disk. -/
def recVgPres : Record :=
  { rec0 with
    id := "vg0", typ := "lvm_volgroup", name := some "vg0n",
    devices := some ["d"], preserve := true }

/-- Configuration for the preserved-volgroup witness. -/
def cfgVgPres : List Record := [recDiskD, recVgPres]

/-- Environment whose pvdisplay reports exactly the declared physical
volume under the volgroup name. -/
def envVgPres : Env :=
  { env0 with output := fun c => if c == pvdisplayCmd then "  vg0n=/dev/sda" else "" }

/-- C2 witness: the preserve theorem applied to concrete runs that
validate: the recorded actions are non-writes, the geometry check accepts
the matching partition and rejects a mismatched start, and both preserving
runs succeed with the verified facts. -/
theorem preserve_read_only_witness :
    isWrite (Action.subpCmd ["partprobe", "/dev/sda"]) = false ∧
    isWrite (Action.subpCmd ["vgchange", "-a", "y"]) = false ∧
    partitionPreserveCheck ⟨PartType.normal, 34, 2048, "/dev/sda1"⟩ 34 2048 =
      Except.ok () ∧
    partitionPreserveCheck ⟨PartType.normal, 34, 2048, "/dev/sda1"⟩ 40 2048 =
      Except.error (Err.configError "partition preserve mismatch") ∧
    (∃ disk offset lenS ppath p,
      (resolveVol envPres cfgPres 5 recPartPres.device).result =
        Except.ok disk ∧
      computeOffset cfgPres recPartPres.device (envPres.diskPartitions disk)
        (envPres.sectorSize disk)
        (handlerPartNumber recPartPres.number (envPres.diskPartitions disk)) =
          Except.ok offset ∧
      computeLength (recPartPres.size.getD "") (envPres.sectorSize disk) =
        Except.ok lenS ∧
      (resolveVol envPres cfgPres 5 (some recPartPres.id)).result =
        Except.ok ppath ∧
      (envPres.diskPartitions disk).find? (fun q => q.path == ppath) = some p ∧
      p.pstart = offset ∧ p.plength = lenS) ∧
    (∃ paths,
      (resolveManyChecked envVgPres cfgVgPres 5
        (recVgPres.devices.getD [])).result = Except.ok paths ∧
      eqAsSets (vgCurrentPaths (recVgPres.name.getD "")
        (envVgPres.output pvdisplayCmd)) paths = true) := by
  refine ⟨?_, ?_, ?_, ?_, ?_, ?_⟩
  · exact preserve_read_only.1 envPres cfgPres 5 recPartPres rfl _ (by decide)
  · exact preserve_read_only.2.1 envVgPres cfgVgPres 5 recVgPres rfl _ (by decide)
  · exact (preserve_read_only.2.2.1 ⟨PartType.normal, 34, 2048, "/dev/sda1"⟩
      34 2048).1.mpr ⟨rfl, rfl⟩
  · exact (preserve_read_only.2.2.1 ⟨PartType.normal, 34, 2048, "/dev/sda1"⟩
      40 2048).2 (Or.inl (by decide))
  · exact preserve_read_only.2.2.2.1 envPres cfgPres 5 recPartPres rfl (by decide)
  · exact preserve_read_only.2.2.2.2 envVgPres cfgVgPres 5 recVgPres rfl (by decide)

/- ## C8: fat label length checking -/

/-- If an action has devsync shape, it is not an mkfs.fat invocation. -/
theorem devsyncShape_not_mkfs {a : Action} (h : devsyncShape a)
    (args : List String) : a ≠ Action.subpCmd ("mkfs.fat" :: args) := by
  rcases h with h | ⟨p, h⟩ | h <;> subst h
  · intro hc; exact Action.noConfusion hc
  · intro hc
    have h2 := Action.subpCmd.inj hc
    have hh : ("partprobe" : String) = "mkfs.fat" := by injection h2
    exact absurd hh (by decide)
  · intro hc
    have h2 := Action.subpCmd.inj hc
    have hh : ("udevadm" : String) = "mkfs.fat" := by injection h2
    exact absurd hh (by decide)

/-- The C8 reading, at the fstype fat member of the claimed set: a format
record with fstype fat and a label longer than 11 characters fails with a
ConfigError and never invokes mkfs.fat. -/
def claimFatLabelRejected : Prop :=
  ∀ (env : Env) (cfg : List Record) (fuel : Nat) (info : Record) (l : String),
    info.fstype = some "fat" → info.label = some l → l.length > 11 →
    (format_handler env cfg fuel info).result ≠ Except.ok () ∧
    ∀ args, Action.subpCmd ("mkfs.fat" :: args) ∉
      (format_handler env cfg fuel info).trace

/-- A format record with fstype fat and a 12-character label. -/
def recFmtFat : Record :=
  { rec0 with
    id := "f1", typ := "format", volume := some "p1",
    fstype := some "fat", label := some "testlabel12x" }

/-- Configuration for the C8 counterexample: disk, partition, format. -/
def cfgFmtFat : List Record := [recDiskD, recPartP1, recFmtFat]

/-- C8, counterexample: with fstype fat (no size digits) the label branch
of the format handler is never reached, so a 12-character label is neither
checked nor passed: the handler succeeds and invokes mkfs.fat without -n. -/
theorem fat_label_unchecked : ¬ claimFatLabelRejected := by
  intro h
  have := h envOnePart cfgFmtFat 5 recFmtFat "testlabel12x" rfl rfl (by decide)
  exact this.2 ["/dev/sda1"] (by decide)

/-- C8 (amended): for fstype fat12, fat16 and fat32 a label longer than 11
characters is rejected with a ValueError before mkfs.fat is invoked; for
the bare fstype fat, the command is always plain mkfs.fat on the path: the
label is neither length-checked nor passed, whatever it is. -/
theorem fat_label_check_characterization :
    (∀ (env : Env) (label : Option String) (vp l fs : String),
      fs ∈ (["fat12", "fat16", "fat32"] : List String) →
      pyGet label = some l → l.length > 11 →
      mkfsCommand env (some fs) label vp =
        ⟨[], Except.error (Err.configError "fat label too long")⟩) ∧
    (∀ (env : Env) (cfg : List Record) (fuel : Nat) (info : Record)
       (l fs : String),
      info.fstype = some fs → fs ∈ (["fat12", "fat16", "fat32"] : List String) →
      pyGet info.label = some l → l.length > 11 → info.preserve = false →
      (format_handler env cfg fuel info).result ≠ Except.ok () ∧
      ∀ args, Action.subpCmd ("mkfs.fat" :: args) ∉
        (format_handler env cfg fuel info).trace) ∧
    (∀ (env : Env) (label : Option String) (vp : String),
      mkfsCommand env (some "fat") label vp =
        ⟨[], Except.ok ["mkfs.fat", vp]⟩) := by
  have key : ∀ (env : Env) (label : Option String) (vp l fs : String),
      fs ∈ (["fat12", "fat16", "fat32"] : List String) →
      pyGet label = some l → l.length > 11 →
      mkfsCommand env (some fs) label vp =
        ⟨[], Except.error (Err.configError "fat label too long")⟩ := by
    intro env label vp l fs hfs hl hlen
    have h12 : fs = "fat12" ∨ fs = "fat16" ∨ fs = "fat32" := by simpa using hfs
    rcases h12 with rfl | rfl | rfl <;>
      · unfold mkfsCommand
        rw [if_neg (by decide), if_pos (by decide), if_pos (by decide), hl]
        show (if l.length > 11 then
            (fail (Err.configError "fat label too long") : Run (List String))
          else _) = _
        rw [if_pos hlen]
        rfl
  refine ⟨key, ?_, ?_⟩
  · intro env cfg fuel info l fs hfst hfs hl hlen hpres
    constructor
    · intro hok
      unfold format_handler at hok
      split at hok
      · exact absurd hok (by decide)
      · obtain ⟨vp, _, h1⟩ := run_bind_ok_inv _ _ _ hok
        rw [if_neg (by simp [hpres])] at h1
        obtain ⟨cmd, hcmd, _⟩ := run_bind_ok_inv _ _ _ h1
        rw [hfst, key env info.label vp l fs hfs hl hlen] at hcmd
        exact absurd hcmd (by simp)
    · intro args hmem
      unfold format_handler at hmem
      split at hmem
      · exact absurd hmem (not_mem_fail_trace hmem).elim
      · rcases mem_bind_trace hmem with h1 | ⟨vp, h2⟩
        · exact devsyncShape_not_mkfs (resolveVol_shape fuel info.volume _ h1)
            args rfl
        · rw [if_neg (by simp [hpres])] at h2
          rw [hfst, key env info.label vp l fs hfs hl hlen] at h2
          rw [run_bind_err _ _ (Err.configError "fat label too long") rfl] at h2
          exact absurd h2 (by simp)
  · intro env label vp
    rfl

/-- A format record with fstype fat16 and a 13-character label. -/
def recFmt16 : Record :=
  { rec0 with
    id := "f2", typ := "format", volume := some "p1",
    fstype := some "fat16", label := some "alongfatlabel" }

/-- Configuration for the C8 witness. -/
def cfgFmt16 : List Record := [recDiskD, recPartP1, recFmt16]

/-- C8 witness: at concrete inputs, fat16 with a long label builds the
ValueError and the handler fails, while bare fat with the same label
silently builds the plain mkfs.fat command. -/
theorem fat_label_check_witness :
    mkfsCommand env0 (some "fat16") (some "alongfatlabel") "/dev/sda1" =
      ⟨[], Except.error (Err.configError "fat label too long")⟩ ∧
    (format_handler envOnePart cfgFmt16 5 recFmt16).result ≠ Except.ok () ∧
    mkfsCommand env0 (some "fat") (some "alongfatlabel") "/dev/sda1" =
      ⟨[], Except.ok ["mkfs.fat", "/dev/sda1"]⟩ := by
  refine ⟨?_, ?_, ?_⟩
  · exact fat_label_check_characterization.1 env0 (some "alongfatlabel")
      "/dev/sda1" "alongfatlabel" "fat16" (by decide) (by decide) (by decide)
  · exact (fat_label_check_characterization.2.1 envOnePart cfgFmt16 5 recFmt16
      "alongfatlabel" "fat16" rfl (by decide) (by decide) (by decide) rfl).1
  · exact fat_label_check_characterization.2.2 env0 (some "alongfatlabel")
      "/dev/sda1"

/- ## C9: the dm_crypt key file -/

theorem subp_zero_err (env : Env) (cmd : List String)
    (h : env.exitCode cmd ≠ 0) :
    subp env cmd [0] =
      ⟨[Action.subpCmd cmd],
       Except.error (Err.toolError cmd (env.exitCode cmd))⟩ :=
  subp_of_disallowed env cmd [0]
    (by rw [contains_singleton_zero]; simpa using h)

theorem dmCrypt_luks_fail (env : Env) (vp dm_name key : String)
    (cipher keysize : Option String)
    (h : env.exitCode (luksFormatCmd cipher keysize vp env.tempFile) ≠ 0) :
    dmCryptAfterResolve env vp dm_name key cipher keysize =
      ⟨[Action.writeFile env.tempFile key,
        Action.subpCmd (luksFormatCmd cipher keysize vp env.tempFile)],
       Except.error (Err.toolError (luksFormatCmd cipher keysize vp env.tempFile)
         (env.exitCode (luksFormatCmd cipher keysize vp env.tempFile)))⟩ := by
  unfold dmCryptAfterResolve
  rw [run_bind_ok _ _ () rfl]
  rw [run_bind_err _ _ _ (by rw [subp_zero_err env _ h])]
  rw [subp_zero_err env _ h]
  rfl

theorem dmCrypt_open_fail (env : Env) (vp dm_name key : String)
    (cipher keysize : Option String)
    (h1 : env.exitCode (luksFormatCmd cipher keysize vp env.tempFile) = 0)
    (h2 : env.exitCode (cryptOpenCmd vp dm_name env.tempFile) ≠ 0) :
    dmCryptAfterResolve env vp dm_name key cipher keysize =
      ⟨[Action.writeFile env.tempFile key,
        Action.subpCmd (luksFormatCmd cipher keysize vp env.tempFile),
        Action.subpCmd (cryptOpenCmd vp dm_name env.tempFile)],
       Except.error (Err.toolError (cryptOpenCmd vp dm_name env.tempFile)
         (env.exitCode (cryptOpenCmd vp dm_name env.tempFile)))⟩ := by
  unfold dmCryptAfterResolve
  rw [run_bind_ok _ _ () rfl]
  rw [run_bind_ok _ _ () (by rw [subp_zero_ok env _ h1])]
  rw [run_bind_err _ _ _ (by rw [subp_zero_err env _ h2])]
  rw [subp_zero_ok env _ h1, subp_zero_err env _ h2]
  rfl

theorem dmCrypt_both_ok (env : Env) (vp dm_name key : String)
    (cipher keysize : Option String)
    (h1 : env.exitCode (luksFormatCmd cipher keysize vp env.tempFile) = 0)
    (h2 : env.exitCode (cryptOpenCmd vp dm_name env.tempFile) = 0) :
    dmCryptAfterResolve env vp dm_name key cipher keysize =
      ⟨[Action.writeFile env.tempFile key,
        Action.subpCmd (luksFormatCmd cipher keysize vp env.tempFile),
        Action.subpCmd (cryptOpenCmd vp dm_name env.tempFile),
        Action.removeFile env.tempFile] ++
        (if pyTruthy env.stateFstab then
          [Action.appendFile (pyJoin (pyDirname (env.stateFstab.getD "")) "crypttab")
            (dm_name ++ " UUID=" ++ env.volumeUuid vp ++ " none luks\n")]
         else []),
       Except.ok ()⟩ := by
  unfold dmCryptAfterResolve
  rw [run_bind_ok _ _ () rfl]
  rw [run_bind_ok _ _ () (by rw [subp_zero_ok env _ h1])]
  rw [run_bind_ok _ _ () (by rw [subp_zero_ok env _ h2])]
  rw [run_bind_ok _ _ () rfl]
  rw [subp_zero_ok env _ h1, subp_zero_ok env _ h2]
  by_cases hf : pyTruthy env.stateFstab = true
  · rw [if_pos hf, if_pos hf]
    rfl
  · rw [if_neg hf, if_neg hf]
    rfl

/-- C9: the temporary plaintext key file is removed exactly when both
cryptsetup invocations succeed: if luksFormat or open fails, the removal is
never reached and the key file stays on disk.  The first conjunct pins the
dm_crypt handler to its post-resolution body; the second is the removal
condition. -/
theorem dm_crypt_keyfile_removal :
    (∀ (env : Env) (cfg : List Record) (fuel : Nat) (info : Record),
      pyTruthy info.volume = true → pyTruthy info.key = true →
      dm_crypt_handler env cfg fuel info =
        resolveVol env cfg fuel info.volume >>= fun vp =>
          dmCryptAfterResolve env vp
            (if pyTruthy info.dm_name then info.dm_name.getD "" else info.id)
            (info.key.getD "") (pyGet info.cipher) (pyGet info.keysize)) ∧
    (∀ (env : Env) (vp dm_name key : String) (cipher keysize : Option String),
      (Action.removeFile env.tempFile ∈
        (dmCryptAfterResolve env vp dm_name key cipher keysize).trace) ↔
      (env.exitCode (luksFormatCmd cipher keysize vp env.tempFile) = 0 ∧
       env.exitCode (cryptOpenCmd vp dm_name env.tempFile) = 0)) := by
  constructor
  · intro env cfg fuel info hv hk
    unfold dm_crypt_handler
    rw [if_neg (by simp [hv]), if_neg (by simp [hk])]
  · intro env vp dm_name key cipher keysize
    by_cases h1 : env.exitCode (luksFormatCmd cipher keysize vp env.tempFile) = 0
    · by_cases h2 : env.exitCode (cryptOpenCmd vp dm_name env.tempFile) = 0
      · rw [dmCrypt_both_ok env vp dm_name key cipher keysize h1 h2]
        constructor
        · intro _
          exact ⟨h1, h2⟩
        · intro _
          simp
      · rw [dmCrypt_open_fail env vp dm_name key cipher keysize h1 h2]
        constructor
        · intro hmem
          simp at hmem
        · rintro ⟨_, hh2⟩
          exact absurd hh2 h2
    · rw [dmCrypt_luks_fail env vp dm_name key cipher keysize h1]
      constructor
      · intro hmem
        simp at hmem
      · rintro ⟨hh1, _⟩
        exact absurd hh1 h1

/-- A dm_crypt record over the partition. -/
def recCrypt : Record :=
  { rec0 with
    id := "cr0", typ := "dm_crypt", volume := some "p1",
    key := some "secretpw", dm_name := some "cryptroot" }

/-- An environment in which the cryptsetup open invocation fails. -/
def envOpenFails : Env :=
  { envOnePart with
    exitCode := fun c =>
      if c == cryptOpenCmd "/dev/sda1" "cryptroot" "/tmp/keyfile0" then 1 else 0 }

/-- C9 witness: with both cryptsetup invocations succeeding the key file
removal is in the trace; with the open invocation failing it is not; and
the handler equation applies at the concrete record. -/
theorem dm_crypt_keyfile_removal_witness :
    (Action.removeFile env0.tempFile ∈
      (dmCryptAfterResolve env0 "/dev/sda1" "cryptroot" "secretpw" none none).trace) ∧
    ¬ (Action.removeFile envOpenFails.tempFile ∈
      (dmCryptAfterResolve envOpenFails "/dev/sda1" "cryptroot" "secretpw"
        none none).trace) ∧
    dm_crypt_handler envOnePart (cfgDiskPart ++ [recCrypt]) 5 recCrypt =
      (resolveVol envOnePart (cfgDiskPart ++ [recCrypt]) 5 recCrypt.volume >>=
        fun vp => dmCryptAfterResolve envOnePart vp "cryptroot" "secretpw"
          none none) := by
  refine ⟨?_, ?_, ?_⟩
  · exact (dm_crypt_keyfile_removal.2 env0 "/dev/sda1" "cryptroot" "secretpw"
      none none).mpr ⟨rfl, rfl⟩
  · intro hmem
    have := (dm_crypt_keyfile_removal.2 envOpenFails "/dev/sda1" "cryptroot"
      "secretpw" none none).mp hmem
    exact absurd this.2 (by decide)
  · exact dm_crypt_keyfile_removal.1 envOnePart (cfgDiskPart ++ [recCrypt]) 5
      recCrypt rfl rfl

/- ## C10: preserve verification matches by substring -/

/-- Python `line.split(sep)[0]`. -/
def firstField (line : String) : String :=
  (pySplit line '=').headD ""

/-- Reference semantics the specification suggests for the volgroup
preserve verification: compare the vg_name field of each pvdisplay line
exactly (stripped of leading blanks) against the volgroup name. -/
def vgCurrentPathsExact (name out : String) : List String :=
  (pySplitLines out).foldr
    (fun line acc =>
      if pyStripEnds (fun c => c == ' ') (firstField line) == name then
        lastField line :: acc
      else acc) []

/-- Reference semantics for the lvm partition preserve verification: the
lv_name field must equal the name exactly. -/
def lvFoundExact (name volgroup out : String) : Bool :=
  (pySplitLines out).any
    (fun line =>
      pyStripEnds (fun c => c == ' ') (firstField line) == name &&
        volgroup == lastField line)

/-- The disk whose node is the physical volume of the C10 scenario. -/
def recDiskSub : Record :=
  { rec0 with id := "d1", typ := "disk", path := some "/dev/sda1" }

/-- A preserved volgroup named vg, while the system only has a volgroup
named myvg. -/
def recVgSub : Record :=
  { rec0 with
    id := "vg0", typ := "lvm_volgroup", name := some "vg",
    devices := some ["d1"], preserve := true }

/-- A preserved lvm partition named lv, while the system only has an lv
named mylv. -/
def recLvSub : Record :=
  { rec0 with
    id := "lv0", typ := "lvm_partition", volgroup := some "vg0",
    name := some "lv", preserve := true }

/-- Configuration for the C10 scenario. -/
def cfgSub : List Record := [recDiskSub, recVgSub, recLvSub]

/-- Environment whose pvdisplay and lvdisplay output lists only volumes of
OTHER names (myvg, mylv) that merely contain the declared names. -/
def envSub : Env :=
  { env0 with
    output := fun c =>
      if c == pvdisplayCmd then "  myvg=/dev/sda1"
      else if c == lvdisplayCmd then "  mylv=vg" else "" }

/-- C10: both preserve verifications match tool-output lines by substring
containment of the name anywhere in the line, not by exact field equality:
on output listing only a volgroup myvg over /dev/sda1, verification of a
preserved volgroup named vg SUCCEEDS (counting the myvg line toward vg),
although no volgroup is named exactly vg; likewise a preserved lv named lv
is accepted on the strength of a line for mylv.  The exact-field reference
check refuses both. -/
theorem preserve_matching_by_substring :
    vgCurrentPaths "vg" "  myvg=/dev/sda1" = ["/dev/sda1"] ∧
    vgCurrentPathsExact "vg" "  myvg=/dev/sda1" = [] ∧
    (lvm_volgroup_handler envSub cfgSub 5 recVgSub).result = Except.ok () ∧
    lvFound "lv" "vg" "  mylv=vg" = true ∧
    lvFoundExact "lv" "vg" "  mylv=vg" = false ∧
    (lvm_partition_handler envSub cfgSub 5 recLvSub).result = Except.ok () := by
  refine ⟨by decide, by decide, by decide, by decide, by decide, by decide⟩

/- ## C7: the fstab side-writes of the mount handler -/

theorem run_bind_pure_result {α β : Type} (r : Run α) (f : α → β) :
    (r >>= fun a => pure (f a)).result = r.result.map f := by
  rw [run_bind_def]
  cases hr : r.result <;> rfl

theorem fileAppends_cons (a : Action) (tr : List Action) (f : String) :
    fileAppends (a :: tr) f =
      (match a with
       | Action.appendFile p line =>
         if p == f then line :: fileAppends tr f else fileAppends tr f
       | _ => fileAppends tr f) := by
  cases a <;> rfl

theorem fileAppends_append (t1 t2 : List Action) (f : String) :
    fileAppends (t1 ++ t2) f = fileAppends t1 f ++ fileAppends t2 f := by
  induction t1 with
  | nil => rfl
  | cons a t ih =>
    rw [List.cons_append, fileAppends_cons, fileAppends_cons]
    cases a <;> simp only [ih]
    split <;> simp [ih]

theorem fileAppends_nil_of_no_append (tr : List Action) (f : String)
    (h : ∀ a ∈ tr, ∀ p l, a ≠ Action.appendFile p l) :
    fileAppends tr f = [] := by
  induction tr with
  | nil => rfl
  | cons a t ih =>
    rw [fileAppends_cons]
    have ha := h a (List.mem_cons_self a t)
    have ht := ih (fun b hb => h b (List.mem_cons_of_mem a hb))
    cases a <;> simp only [ht]
    exact absurd rfl (ha _ _)

theorem devsyncShape_not_append {a : Action} (h : devsyncShape a) :
    ∀ p l, a ≠ Action.appendFile p l := by
  rcases h with h | ⟨q, h⟩ | h <;> subst h <;> intro p l hc <;>
    exact Action.noConfusion hc

theorem mountStep_no_append (env : Env) (filesystem : Record)
    (vp : String) (p0 : Option String) :
    ∀ a ∈ (mountStep env filesystem vp p0).trace,
      ∀ p l, a ≠ Action.appendFile p l := by
  intro a ha
  unfold mountStep at ha
  split at ha
  · rcases mem_bind_trace ha with h1 | ⟨u, h2⟩
    · have := mem_emit_trace h1
      subst this
      intro p l hc
      exact Action.noConfusion hc
    · have := mem_subp_trace h2
      subst this
      intro p l hc
      exact Action.noConfusion hc
  · exact absurd ha (not_mem_pure_trace ha).elim

theorem fstabEntry_no_append (env : Env) (cfg : List Record) (fuel : Nat)
    (filesystem : Record) (volumeO : Option Record) (vp : String)
    (p0 : Option String) :
    ∀ a ∈ (fstabEntry env cfg fuel filesystem volumeO vp p0).trace,
      ∀ p l, a ≠ Action.appendFile p l := by
  intro a ha
  unfold fstabEntry at ha
  rcases mem_bind_trace ha with h1 | ⟨loc, h2⟩
  · split at h1
    · exact absurd h1 (not_mem_fail_trace h1).elim
    · split at h1
      · exact devsyncShape_not_append (resolveVol_shape fuel _ a h1)
      · split at h1
        · exact absurd h1 (not_mem_pure_trace h1).elim
        · exact absurd h1 (not_mem_fail_trace h1).elim
  · exact absurd h2 (not_mem_pure_trace h2).elim

/-- The location rule of the fstab line, as the specification states it:
the resolved device path for raid, bcache and lvm_partition volumes, the
UUID of the formatted volume for partition and dm_crypt volumes, and a
rejection for every other volume type. -/
def fstabLocation (env : Env) (cfg : List Record) (fuel : Nat)
    (volume : Record) (volume_path : String) : Except Err String :=
  if ["raid", "bcache", "lvm_partition"].contains volume.typ then
    (resolveVol env cfg fuel (some volume.id)).result
  else if ["partition", "dm_crypt"].contains volume.typ then
    Except.ok ("UUID=" ++ env.volumeUuid volume_path)
  else Except.error (Err.configError "cannot write fstab for volume type")

/-- C7 (amended): for every mount record processed while an fstab path is
configured, exactly one line is appended to fstab, assembled as location,
mount point, fstype, options and the fixed dump and pass zeros: the
location is the resolved device path for raid, bcache and lvm_partition
volumes, the UUID of the formatted volume for partition and dm_crypt
volumes, and any other volume type is rejected; the mount point is none
and the options sw for swap, else the slash-prefixed path and defaults;
the fstypes collapsed to vfat are exactly fat, fat12, fat16, fat32 and
fat64 (not every fat-prefixed name); and over a list of mount records the
lines appear in input order, one block per record. -/
theorem fstab_line_characterization :
    (∀ (env : Env) (cfg : List Record) (fuel : Nat) (filesystem volume : Record)
       (vp : String) (p0 : Option String),
      (fstabEntry env cfg fuel filesystem (some volume) vp p0).result =
        (fstabLocation env cfg fuel volume vp).map
          (fun loc => loc ++ " " ++ fstabPathField filesystem.fstype p0 ++ " " ++
            fstabFstypeField filesystem.fstype ++ " " ++
            fstabOptionsField filesystem.fstype ++ " 0 0\n")) ∧
    (∀ (env : Env) (cfg : List Record) (fuel : Nat) (volume : Record)
       (vp : String),
      volume.typ ∉ (["raid", "bcache", "lvm_partition", "partition",
        "dm_crypt"] : List String) →
      fstabLocation env cfg fuel volume vp =
        Except.error (Err.configError "cannot write fstab for volume type")) ∧
    (∀ (env : Env) (cfg : List Record) (fuel : Nat) (m : Record) (f : String),
      env.stateFstab = some f → pyTruthy env.stateFstab = true →
      (mount_handler env cfg fuel m).result = Except.ok () →
      ∃ filesystem vp line,
        lookup cfg m.device = some filesystem ∧
        (resolveVol env cfg fuel filesystem.volume).result = Except.ok vp ∧
        (fstabEntry env cfg fuel filesystem (lookup cfg filesystem.volume) vp
          m.path).result = Except.ok line ∧
        fileAppends (mount_handler env cfg fuel m).trace f = [line]) ∧
    (∀ (env : Env) (cfg : List Record) (fuel : Nat) (f : String)
       (mounts : List Record),
      (mountAll env cfg fuel mounts).result = Except.ok () →
      fileAppends (mountAll env cfg fuel mounts).trace f =
        (mounts.map (fun m =>
          fileAppends (mount_handler env cfg fuel m).trace f)).flatten ∧
      ∀ m ∈ mounts, (mount_handler env cfg fuel m).result = Except.ok ()) := by
  refine ⟨?_, ?_, ?_, ?_⟩
  · intro env cfg fuel filesystem volume vp p0
    unfold fstabEntry fstabLocation
    show ((if ["raid", "bcache", "lvm_partition"].contains volume.typ then
        resolveVol env cfg fuel (some volume.id)
      else if ["partition", "dm_crypt"].contains volume.typ then
        pure ("UUID=" ++ env.volumeUuid vp)
      else fail (Err.configError "cannot write fstab for volume type")) >>=
        fun location => pure _).result = _
    by_cases h1 : (["raid", "bcache", "lvm_partition"].contains volume.typ) = true
    · rw [if_pos h1, if_pos h1, run_bind_pure_result]
    · rw [if_neg h1, if_neg h1]
      by_cases h2 : (["partition", "dm_crypt"].contains volume.typ) = true
      · rw [if_pos h2, if_pos h2, run_bind_pure_result]
        rfl
      · rw [if_neg h2, if_neg h2, run_bind_pure_result]
        rfl
  · intro env cfg fuel volume vp h
    unfold fstabLocation
    rw [if_neg (by simp at h ⊢; tauto), if_neg (by simp at h ⊢; tauto)]
  · intro env cfg fuel m f hf hft hok
    unfold mount_handler at hok
    split at hok
    · exact absurd hok (by decide)
    · rename_i filesystem heq
      split at hok
      · exact absurd hok (by decide)
      · rename_i hpath
        have hm : mount_handler env cfg fuel m =
            (resolveVol env cfg fuel filesystem.volume >>= fun volume_path =>
              mountStep env filesystem volume_path m.path >>= fun _ =>
              fstabStep env cfg fuel filesystem (lookup cfg filesystem.volume)
                volume_path m.path) := by
          unfold mount_handler
          rw [heq]
          show (if (!pyTruthy m.path && decide (filesystem.fstype ≠ some "swap")) = true
            then (fail (Err.configError "mountpoint path missing") : Run Unit)
            else _) = _
          rw [if_neg hpath]
        obtain ⟨vp, hvp, h1⟩ := run_bind_ok_inv _ _ _ hok
        obtain ⟨u, hms, h2⟩ := run_bind_ok_inv _ _ _ h1
        unfold fstabStep at h2
        rw [if_pos hft] at h2
        obtain ⟨line, hline, _⟩ := run_bind_ok_inv _ _ _ h2
        refine ⟨filesystem, vp, line, heq, hvp, hline, ?_⟩
        rw [hm, run_bind_ok _ _ vp hvp]
        show fileAppends (_ ++ _) f = _
        rw [fileAppends_append]
        rw [run_bind_ok _ _ u hms]
        show _ ++ fileAppends (_ ++ _) f = _
        rw [fileAppends_append]
        have e1 : fileAppends (resolveVol env cfg fuel filesystem.volume).trace f = [] :=
          fileAppends_nil_of_no_append _ f
            (fun a ha => devsyncShape_not_append (resolveVol_shape fuel _ a ha))
        have e2 : fileAppends (mountStep env filesystem vp m.path).trace f = [] :=
          fileAppends_nil_of_no_append _ f (mountStep_no_append env filesystem vp m.path)
        rw [e1, e2]
        unfold fstabStep
        rw [if_pos hft, run_bind_ok _ _ line hline]
        show [] ++ ([] ++ fileAppends (_ ++ (emit _).trace) f) = _
        rw [fileAppends_append]
        have e3 : fileAppends (fstabEntry env cfg fuel filesystem
            (lookup cfg filesystem.volume) vp m.path).trace f = [] :=
          fileAppends_nil_of_no_append _ f
            (fstabEntry_no_append env cfg fuel filesystem _ vp m.path)
        rw [e3, hf]
        show [] ++ ([] ++ ([] ++ fileAppends [Action.appendFile ((some f).getD "") line] f)) = _
        simp [fileAppends_cons, fileAppends]
  · intro env cfg fuel f mounts
    induction mounts with
    | nil =>
      intro _
      exact ⟨rfl, by intro m hm; exact absurd hm (by simp)⟩
    | cons m ms ih =>
      intro hok
      unfold mountAll at hok ⊢
      obtain ⟨u, hm, hrest⟩ := run_bind_ok_inv _ _ _ hok
      obtain ⟨ihtrace, ihall⟩ := ih hrest
      constructor
      · rw [run_bind_ok _ _ u hm]
        show fileAppends (_ ++ _) f = _
        rw [fileAppends_append, ihtrace]
        simp
      · intro q hq
        rcases List.mem_cons.mp hq with rfl | hq2
        · cases u
          exact hm
        · exact ihall q hq2

/-- The C7 reading of the fstype rule: any fat-prefixed fstype is written
to fstab as vfat. -/
def claimFatStarCollapsed : Prop :=
  ∀ fstype : String, charsStartWith "fat".data fstype.data = true →
    fstabFstypeField (some fstype) = "vfat"

/-- A format record with the fat-prefixed but unlisted fstype fat8. -/
def recFmt8 : Record :=
  { rec0 with
    id := "f8", typ := "format", volume := some "p1", fstype := some "fat8" }

/-- A mount record over that format. -/
def recMnt8 : Record :=
  { rec0 with
    id := "m8", typ := "mount", device := some "f8", path := some "/data" }

/-- Configuration for the C7 counterexample and witness. -/
def cfgMount8 : List Record := [recDiskD, recPartP1, recFmt8, recMnt8]

/-- C7, counterexample: the mount handler collapses only the five listed
fat names; the fat-prefixed fstype fat8 is written verbatim: the concrete
run succeeds and appends a line whose fstype field is fat8, not vfat. -/
theorem fstab_fat8_written_verbatim :
    ¬ claimFatStarCollapsed ∧
    (mount_handler envOnePart cfgMount8 5 recMnt8).result = Except.ok () ∧
    fileAppends (mount_handler envOnePart cfgMount8 5 recMnt8).trace
      "/tmp/fstab" = ["UUID=uuid-1234 /data fat8 defaults 0 0\n"] := by
  refine ⟨?_, by decide, by decide⟩
  intro h
  have := h "fat8" (by decide)
  exact absurd this (by decide)

/-- C7 witness: the characterization applied to the concrete configuration:
the successful mount appends exactly one line, the one-element mount list
yields the one-block flattened line list, and a disk or other volume type
location is the rejection. -/
theorem fstab_line_characterization_witness :
    (∃ filesystem vp line,
      lookup cfgMount8 recMnt8.device = some filesystem ∧
      (resolveVol envOnePart cfgMount8 5 filesystem.volume).result =
        Except.ok vp ∧
      (fstabEntry envOnePart cfgMount8 5 filesystem
        (lookup cfgMount8 filesystem.volume) vp recMnt8.path).result =
          Except.ok line ∧
      fileAppends (mount_handler envOnePart cfgMount8 5 recMnt8).trace
        "/tmp/fstab" = [line]) ∧
    (fileAppends (mountAll envOnePart cfgMount8 5 [recMnt8]).trace
      "/tmp/fstab" =
      ([recMnt8].map (fun m =>
        fileAppends (mount_handler envOnePart cfgMount8 5 m).trace
          "/tmp/fstab")).flatten) ∧
    fstabLocation env0 [] 5 recDiskD "/dev/sda" =
      Except.error (Err.configError "cannot write fstab for volume type") := by
  refine ⟨?_, ?_, ?_⟩
  · exact fstab_line_characterization.2.2.1 envOnePart cfgMount8 5 recMnt8
      "/tmp/fstab" rfl (by decide) (by decide)
  · exact (fstab_line_characterization.2.2.2 envOnePart cfgMount8 5
      "/tmp/fstab" [recMnt8] (by decide)).1
  · exact fstab_line_characterization.2.1 env0 [] 5 recDiskD "/dev/sda"
      (by decide)

end BlockMeta
